import Mathlib

/-!
Shallow embedding of `src/eba_validation.py` (EBA XBRL Filing Rules checker,
script version 4.1) together with proofs about its validation predicates.

The script runs against an instance-document object graph materialized by an
external host engine (the `altova_api` modules `xml`, `xsd`, `xbrl`).  Those
host objects are modelled here as plain Lean structures carrying exactly the
data the script reads; XML node references that the script only passes into
diagnostic messages are rendered as identifying strings.  Python dictionaries
threaded through the rule loops are modelled as association lists, Python
iterators as lists in document order, and Python exceptions as an explicit
`Fault` value.  Each rule predicate `eba_x_y` is a pure function from the
modelled instance (plus parameters/options where the source takes them) to
the ordered list of findings it appends to the shared error log, paired with
an optional fault for the code paths on which the Python source would raise.
-/

/-- Severities of `xml.ErrorSeverity` used by the script (plus the default
severity of `xbrl.Error.create` when the keyword is omitted). -/
inductive xml.ErrorSeverity where
  | INFO
  | WARNING
  | OTHER
  | ERROR
deriving DecidableEq, Repr

/-- `xml.QName(local_name, namespace_name)` as constructed by the script. -/
structure xml.QName where
  local_name : String
  namespace_name : String
deriving DecidableEq, Repr

/-- Schema-typed values as tested by the script: `isinstance(val, xsd.QName)`
(in `eba_3_4`) and `isinstance(val, xsd.string)` (in `eba_3_8`). -/
inductive xsd.Value where
  | qnameVal (pfx : String) (local_name : String)
  | stringVal (value : String)
  | otherVal (rendered : String)
deriving DecidableEq, Repr

/-- An XML attribute as read by the script: its namespace prefix (empty when
unprefixed), local name, optional namespace, normalized value and optional
schema-typed actual value. -/
structure xml.Attr where
  pfx : String
  local_name : String
  namespace_name : Option String
  normalized_value : String
  schema_actual_value : Option xsd.Value
deriving DecidableEq, Repr

/-- A namespace declaration attribute (`xmlns:p="uri"`; the default
declaration carries local name `xmlns`, which the script skips). -/
structure xml.NsAttr where
  local_name : String
  normalized_value : String
deriving DecidableEq, Repr

/-- An element information item of the instance document tree, with the data
the script reads: prefix, name, attributes, namespace declaration attributes,
schema-typed value and child elements. -/
inductive xml.Element where
  | mk (namespace_name : String) (pfx : String) (local_name : String)
       (attributes : List xml.Attr) (namespace_attributes : List xml.NsAttr)
       (schema_actual_value : Option xsd.Value) (children : List xml.Element)

def xml.Element.namespace_name : xml.Element → String
  | .mk ns _ _ _ _ _ _ => ns

def xml.Element.pfx : xml.Element → String
  | .mk _ p _ _ _ _ _ => p

def xml.Element.local_name : xml.Element → String
  | .mk _ _ n _ _ _ _ => n

def xml.Element.attributes : xml.Element → List xml.Attr
  | .mk _ _ _ atts _ _ _ => atts

def xml.Element.namespace_attributes : xml.Element → List xml.NsAttr
  | .mk _ _ _ _ nsatts _ _ => nsatts

def xml.Element.schema_actual_value : xml.Element → Option xsd.Value
  | .mk _ _ _ _ _ v _ => v

/-- `elem.element_children()` of the host API. -/
def xml.Element.element_children : xml.Element → List xml.Element
  | .mk _ _ _ _ _ _ ch => ch

/-- `elem.find_attribute(xml.QName(local, ns))`: the first attribute with the
given local name and namespace, or none. -/
def xml.Element.find_attribute (e : xml.Element) (q : xml.QName) : Option xml.Attr :=
  e.attributes.find? (fun a =>
    a.local_name == q.local_name && a.namespace_name == some q.namespace_name)

/-- A diagnostic finding built by `xbrl.Error.create`: message template,
named substitution arguments (objects rendered as identifying strings),
optional source location, nested child findings, and severity. -/
inductive xbrl.Error where
  | mk (message : String) (args : List (String × String))
       (location : Option String) (children : List xbrl.Error)
       (severity : xml.ErrorSeverity)

def xbrl.Error.message : xbrl.Error → String
  | .mk m _ _ _ _ => m

def xbrl.Error.args : xbrl.Error → List (String × String)
  | .mk _ a _ _ _ => a

def xbrl.Error.location : xbrl.Error → Option String
  | .mk _ _ l _ _ => l

def xbrl.Error.children : xbrl.Error → List xbrl.Error
  | .mk _ _ _ c _ => c

def xbrl.Error.severity : xbrl.Error → xml.ErrorSeverity
  | .mk _ _ _ _ s => s

/-- `xbrl.Error.create(message, **kwargs)`; all keyword arguments are passed
explicitly and positionally here (substitution args, location, children,
severity; the severity defaults to `ERROR` in the host API when omitted). -/
def xbrl.Error.create (message : String) (args : List (String × String))
    (location : Option String) (children : List xbrl.Error)
    (severity : xml.ErrorSeverity) : xbrl.Error :=
  .mk message args location children severity

/-- Python exceptions that the script's code paths can raise;
`check_eba_filing_rules` is a plain sequence of calls, so the first raised
exception aborts the remaining rule predicates. -/
inductive Fault where
  | stopIteration
  | nameError
  | valueError
  | attributeError
  | keyError
  | conceptResolutionFailure
deriving DecidableEq, Repr

/-- Association-list lookup, modelling Python `dict` lookup /
`dict.get(key)` returning `None` when absent. -/
def lookupA {α β : Type} [DecidableEq α] : List (α × β) → α → Option β
  | [], _ => none
  | (k, v) :: rest, key => if k = key then some v else lookupA rest key

/-- Replace the value stored at a key (modelling in-place mutation of the
list object stored in a Python dict bucket). -/
def assocSet {α β : Type} [DecidableEq α] : List (α × β) → α → β → List (α × β)
  | [], k, v => [(k, v)]
  | (k', v') :: rest, k, v =>
      if k' = k then (k, v) :: rest else (k', v') :: assocSet rest k v

/-- Split a character list at every occurrence of a separator character
(model of Python `str.split(sep)` for one-character separators). -/
def splitOnChar (sep : Char) : List Char → List (List Char)
  | [] => [[]]
  | c :: rest =>
    if c = sep then [] :: splitOnChar sep rest
    else
      match splitOnChar sep rest with
      | g :: gs => (c :: g) :: gs
      | [] => [[c]]

/-- Model of Python `str.upper()` (character-wise upper-casing). -/
def pyUpper (s : String) : String :=
  String.mk (s.data.map Char.toUpper)

/-- Model of Python `str.startswith(pre)`. -/
def pyStartsWith (s pre : String) : Bool :=
  pre.data.isPrefixOf s.data

/-- Model of Python `ch in str` for one character. -/
def pyContainsChar (s : String) (c : Char) : Bool :=
  s.data.contains c

/-- Model of Python `str.split(sep)` returning strings, for a one-character
separator. -/
def pySplitOn (s : String) (sep : Char) : List String :=
  (splitOnChar sep s.data).map String.mk

/-- The whitespace stripping performed by Python `int(str)`. -/
def pyStrip (s : String) : List Char :=
  ((s.data.dropWhile Char.isWhitespace).reverse.dropWhile Char.isWhitespace).reverse

/-- Digit-group parser for Python `int(str)`: one or more decimal digits
with single underscores allowed between digit groups. -/
def pyIntDigits? (cs : List Char) : Option Nat :=
  if cs.isEmpty then none
  else
    let groups := splitOnChar '_' cs
    if groups.any (fun g => g.isEmpty || g.any (fun ch => !ch.isDigit)) then none
    else some ((cs.filter (fun ch => ch != '_')).foldl
      (fun a ch => 10 * a + (ch.toNat - 48)) 0)

/-- Python `int(str)`: surrounding whitespace stripped, optional sign, then
decimal digits; every other string raises `ValueError`. -/
def pyInt? (s : String) : Option Int :=
  match pyStrip s with
  | '-' :: rest => (pyIntDigits? rest).map (fun n => -(n : Int))
  | '+' :: rest => (pyIntDigits? rest).map (fun n => (n : Int))
  | cs => (pyIntDigits? cs).map (fun n => (n : Int))

/-- Python truthiness of an optional string attribute value (absent or empty
is falsy). -/
def pyTruthyOptStr : Option String → Bool
  | none => false
  | some s => !s.data.isEmpty

/-- An entity identifier: `@scheme` attribute and content of
`xbrli:identifier` (the `entity_identifier_aspect_value` of a context). -/
structure xbrl.Identifier where
  scheme : String
  value : String
deriving DecidableEq, Repr

/-- The `xbrli:entity` of a context: identifier and optional segment content
(rendered child signatures; `None` when no `xbrli:segment` element). -/
structure xbrl.Entity where
  identifier : xbrl.Identifier
  segment : Option (List String)
deriving DecidableEq, Repr

/-- An instant period value with the data `eba_2_10` reads: the reported
date, whether `value.tzinfo` is set, and
`element.member_type_definition.name`. -/
structure xbrl.Instant where
  date : String
  has_tzinfo : Bool
  member_type_name : String
deriving DecidableEq, Repr

/-- The `xbrli:period` of a context. -/
inductive xbrl.Period where
  | instant (i : xbrl.Instant)
  | duration (start_date end_date : String)
  | forever
deriving DecidableEq, Repr

/-- `period.is_instant()`. -/
def xbrl.Period.is_instant : xbrl.Period → Bool
  | .instant _ => true
  | _ => false

/-- `period.is_forever()`. -/
def xbrl.Period.is_forever : xbrl.Period → Bool
  | .forever => true
  | _ => false

/-- `period.instant` (None unless the period is an instant). -/
def xbrl.Period.instant? : xbrl.Period → Option xbrl.Instant
  | .instant i => some i
  | _ => none

/-- The `xbrli:scenario` of a context: its dimensional members (dimension
qname, member qname, both rendered) and any non-XDT child elements
(rendered), as iterated by `scenario.non_xdt_child_elements`. -/
structure xbrl.Scenario where
  dimension_members : List (String × String)
  non_xdt_child_elements : List String
deriving DecidableEq, Repr

/-- An `xbrli:context` with the data the script reads. -/
structure Context where
  id : String
  entity : xbrl.Entity
  period : xbrl.Period
  scenario : Option xbrl.Scenario
deriving DecidableEq, Repr

/-- `context.entity_identifier_aspect_value`. -/
def Context.entity_identifier_aspect_value (c : Context) : xbrl.Identifier :=
  c.entity.identifier

/-- `context.period_aspect_value`. -/
def Context.period_aspect_value (c : Context) : xbrl.Period :=
  c.period

/-- An `xbrli:unit` with the data the script reads: its id, its measures (the
aspect signature by which units are deduplicated), and the predicates /
currency of `unit.aspect_value`. -/
structure xbrl.Unit where
  id : String
  measures : List String
  is_monetary : Bool
  is_pure : Bool
  iso4217_currency : Option String
deriving DecidableEq, Repr

/-- `xbrl.ConstraintSet(context)`: the aspect-value signature of a context —
entity identifier, period, segment content and scenario content.  Two
contexts are duplicates exactly when these signatures are equal. -/
structure xbrl.ConstraintSet where
  entity : xbrl.Identifier
  period : xbrl.Period
  segment : Option (List String)
  scenario : Option xbrl.Scenario
deriving DecidableEq, Repr

/-- `xbrl.ConstraintSet(context)` applied to a context object. -/
def xbrl.ConstraintSet.ofContext (c : Context) : xbrl.ConstraintSet :=
  ⟨c.entity.identifier, c.period, c.entity.segment, c.scenario⟩

/-- `xbrl.ConstraintSet(unit)`: for a unit the signature consists of the
unit aspect alone, i.e. the unit's measures. -/
def xbrl.ConstraintSet.ofUnit (u : xbrl.Unit) : List String :=
  u.measures

/-- A taxonomy concept with the data the script reads; `is_item` models
`isinstance(concept, xbrl.taxonomy.Item)`. -/
structure xbrl.Concept where
  name : String
  target_namespace : String
  is_item : Bool
  is_monetary : Bool
  is_numeric : Bool
deriving DecidableEq, Repr

/-- A label resource of a taxonomy table, with its role. -/
structure xbrl.Label where
  text : String
  role : String
deriving DecidableEq, Repr

/-- A taxonomy table; `table.labels(label_role=r)` filters its labels. -/
structure xbrl.Table where
  labels : List xbrl.Label
deriving DecidableEq, Repr

/-- `table.labels(label_role=r)`. -/
def xbrl.Table.labels_for_role (t : xbrl.Table) (r : String) : List xbrl.Label :=
  t.labels.filter (fun l => l.role == r)

/-- A taxonomy schema with its target namespace and the namespace
declarations on its document element (read by `eba_3_5`). -/
structure xbrl.TaxonomySchema where
  target_namespace : String
  namespace_attributes : List xml.NsAttr
deriving DecidableEq, Repr

/-- The DTS (discoverable taxonomy set) of the instance. -/
structure xbrl.DTS where
  tables : List xbrl.Table
  taxonomy_schemas : List xbrl.TaxonomySchema
  concepts : List xbrl.Concept
deriving DecidableEq, Repr

/-- `dts.resolve_concept(qname)`: `None` when the qualified name does not
resolve in the loaded taxonomy. -/
def xbrl.DTS.resolve_concept (dts : xbrl.DTS) (q : xml.QName) : Option xbrl.Concept :=
  dts.concepts.find? (fun c =>
    c.name == q.local_name && c.target_namespace == q.namespace_name)

/-- A `link:schemaRef` element. -/
structure SchemaRef where
  xlink_href : String
deriving DecidableEq, Repr

/-- A `link:linkbaseRef` element. -/
structure LinkbaseRef where
  xlink_href : String
deriving DecidableEq, Repr

/-- A footnote resource of a footnote link. -/
structure Footnote where
  text : String
deriving DecidableEq, Repr

/-- A locator of a footnote link. -/
structure Locator where
  xlink_href : String
deriving DecidableEq, Repr

/-- A `link:footnoteLink` with its resources and locators. -/
structure FootnoteLink where
  resources : List Footnote
  locators : List Locator
deriving DecidableEq, Repr

/-- Document-level metadata read by `eba_1_4` and `eba_1_13`. -/
structure Document where
  character_encoding_scheme : String
  standalone : Option Bool
deriving DecidableEq, Repr

/-- A fact (item) of the instance.  `nodeIdx` is the document position of the
fact element; it makes value equality of the model coincide with the node
identity by which distinct fact objects of the host API compare unequal. -/
structure xbrl.Fact where
  nodeIdx : Nat
  concept : xbrl.Concept
  context : Context
  unit : Option xbrl.Unit
  xml_lang : Option String
  normalized_value : String
  id : Option String
  xsi_nil : Bool
  precision : Option String
  dimension_values : List (xbrl.Concept × xbrl.Concept)
  schema_actual_value : Option xsd.Value
deriving DecidableEq, Repr

/-- The instance-document object graph the host engine hands to the script,
in document order.  All facts of the modelled instances are items. -/
structure Instance where
  uri : String
  document : Document
  document_element : xml.Element
  schema_refs : List SchemaRef
  linkbase_refs : List LinkbaseRef
  footnote_links : List FootnoteLink
  contexts : List Context
  units : List xbrl.Unit
  facts : List xbrl.Fact
  dts : xbrl.DTS

/-- `instance.child_items`: the item facts of the instance (every fact of the
modelled instances is an item). -/
def Instance.child_items (inst : Instance) : List xbrl.Fact :=
  inst.facts

/-- `instance.facts.filter(qname)`: facts whose concept has the given
qualified name. -/
def Instance.facts_filter_qname (inst : Instance) (q : xml.QName) : List xbrl.Fact :=
  inst.facts.filter (fun f =>
    f.concept.name == q.local_name && f.concept.target_namespace == q.namespace_name)

/-- `instance.facts.filter(concept)`: facts reported against the given
concept. -/
def Instance.facts_filter_concept (inst : Instance) (cpt : xbrl.Concept) : List xbrl.Fact :=
  inst.facts.filter (fun f => f.concept == cpt)

/-- `instance.facts.filter(context)` of the host API.  Modelled from the
spec: the fact collection is filtered against the context value itself, not
its identity — a fact matches when its context has the same aspect-value
signature. -/
def Instance.facts_filter_context (inst : Instance) (c : Context) : List xbrl.Fact :=
  inst.facts.filter (fun f =>
    xbrl.ConstraintSet.ofContext f.context == xbrl.ConstraintSet.ofContext c)

/-- `instance.facts.filter(unit)` of the host API.  Modelled from the spec:
value-based filtering — a fact matches when it has a unit with the same
measure signature. -/
def Instance.facts_filter_unit (inst : Instance) (u : xbrl.Unit) : List xbrl.Fact :=
  inst.facts.filter (fun f =>
    (f.unit.map (fun w => w.measures)) == some u.measures)

/-- `instance.facts.concept_aspect_values()`: the distinct concepts reported
in the instance, in order of first occurrence. -/
def Instance.concept_aspect_values (inst : Instance) : List xbrl.Concept :=
  inst.facts.foldl
    (fun acc f => if acc.contains f.concept then acc else acc ++ [f.concept]) []

/-- The validation job object: script parameters, engine options and the
shared error log (`job.catalog` is never read by the script). -/
structure Job where
  script_params : List (String × String)
  options : List (String × Bool)
  error_log : List xbrl.Error

/-- `job.options.get(key)`. -/
def optionsGet (opts : List (String × Bool)) (k : String) : Option Bool :=
  lookupA opts k

/-- The outcome of running one rule predicate: the findings it reports, and
the exception it raises, if any. -/
abbrev RuleResult := List xbrl.Error × Option Fault

/-- The loop of `dfs`: the Python work stack grows at its end and is popped
at its end, so it is modelled here with the top of the stack at the head of
the list; `stack.extend(elem.element_children())` followed by popping from
the end therefore pushes the children in reverse order onto the head. -/
def dfs_stack : List xml.Element → List xml.Element
  | [] => []
  | elem :: stack => elem :: dfs_stack (elem.element_children.reverse ++ stack)
termination_by stack => sizeOf stack
decreasing_by
  simp_wf
  have happ : ∀ (l1 l2 : List xml.Element),
      sizeOf (l1 ++ l2) + 1 = sizeOf l1 + sizeOf l2 := by
    intro l1 l2
    induction l1 with
    | nil => simp only [List.nil_append, List.nil.sizeOf_spec]; omega
    | cons a t ih => simp only [List.cons_append, List.cons.sizeOf_spec]; omega
  have hrev : ∀ (l : List xml.Element), sizeOf l.reverse = sizeOf l := by
    intro l
    induction l with
    | nil => rfl
    | cons a t ih =>
      rw [List.reverse_cons]
      have h := happ t.reverse [a]
      simp only [List.cons.sizeOf_spec, List.nil.sizeOf_spec] at h ih ⊢
      omega
  have hch : sizeOf elem.element_children < sizeOf elem := by
    cases elem with
    | mk ns p n atts nsatts v ch =>
      simp only [xml.Element.element_children, xml.Element.mk.sizeOf_spec]
      omega
  have h1 := happ elem.element_children.reverse stack
  have h2 := hrev elem.element_children
  omega

/-- `dfs(elem)`: "Returns an iterator over all elements in the given XML
subtree." (lines 51-57 of the source), materialized as the list of elements
in the order the generator yields them. -/
def dfs (elem : xml.Element) : List xml.Element :=
  dfs_stack [elem]

/-- Rendering of an attribute node for diagnostic substitution slots. -/
def renderAttr (a : xml.Attr) : String :=
  if a.pfx.isEmpty then "@" ++ a.local_name
  else "@" ++ a.pfx ++ ":" ++ a.local_name

/-- Rendering of a namespace declaration attribute. -/
def renderNsAttr (a : xml.NsAttr) : String :=
  "xmlns:" ++ a.local_name

/-- Rendering of a fact node (by document position). -/
def renderFact (f : xbrl.Fact) : String :=
  "fact-" ++ toString f.nodeIdx

/-- Rendering of a period value. -/
def renderPeriod : xbrl.Period → String
  | .instant i => "instant " ++ i.date
  | .duration s e => "duration " ++ s ++ "/" ++ e
  | .forever => "forever"

/-- Rendering of an entity identifier node. -/
def renderIdentifier (i : xbrl.Identifier) : String :=
  i.scheme ++ " " ++ i.value

/-- EBA 1.4 - Character encoding of XBRL instance documents
(lines 61-66 of the source; the detail text is transcribed verbatim,
including the source's copy-paste of the standalone-declaration wording). -/
def eba_1_4 (inst : Instance) : List xbrl.Error :=
  if pyUpper inst.document.character_encoding_scheme != "UTF-8" then
    let detail_error := xbrl.Error.create
      "XBRL instance documents SHOULD NOT use the XML standalone declaration."
      [] none [] .INFO
    [xbrl.Error.create "[EBA.1.4] Character encoding of XBRL instance documents."
      [] (some inst.uri) [detail_error] .ERROR]
  else []

/-- The loop of `eba_1_6` over the filing indicator facts, threading the
`used_indictors` dictionary (normalized value → first indicator fact). -/
def eba_1_6_go (available_indicators : List String) :
    List xbrl.Fact → List (String × xbrl.Fact) → List xbrl.Error
  | [], _ => []
  | indicator :: rest, used_indictors =>
    let e1 :=
      if indicator.context.entity.segment.isSome || indicator.context.scenario.isSome then
        [xbrl.Error.create "[EBA.1.6] Filing indicators."
          [] (some (renderFact indicator))
          [xbrl.Error.create "The context referenced by the filing indicator elements MUST NOT contain xbrli:segment or xbrli:scenario elements."
            [] none [] .INFO] .ERROR]
      else []
    let stored_used :
        xbrl.Fact × List (String × xbrl.Fact) :=
      match lookupA used_indictors indicator.normalized_value with
      | some f0 => (f0, used_indictors)
      | none => (indicator, used_indictors ++ [(indicator.normalized_value, indicator)])
    let e2 :=
      if stored_used.1 != indicator then
        [xbrl.Error.create "[EBA.1.6.1] Multiple filing indicators for the same reporting unit."
          [] (some (renderFact indicator))
          [xbrl.Error.create "Reported XBRL instances MUST contain only one filing indicator element for a given reporting unit(\"template\")."
            [] none [] .INFO] .ERROR]
      else []
    let e3 :=
      if !available_indicators.contains indicator.normalized_value then
        [xbrl.Error.create "[EBA.1.6.3] Filing indicator codes."
          [] (some (renderFact indicator))
          [xbrl.Error.create "The values of filing indicators MUST only be those given by the label resources with the role http://www.eurofiling.info/xbrl/role/filing-indicator-code applied to the relevant tables in the XBRL taxonomy4 for that reporting module (entry point). Filing indicator values must be formatted correctly (for example including any underscore characters)."
            [] none [] .INFO] .ERROR]
      else []
    e1 ++ e2 ++ e3 ++ eba_1_6_go available_indicators rest stored_used.2

/-- EBA 1.6 - Filing indicators (lines 68-93 of the source). -/
def eba_1_6 (inst : Instance) : List xbrl.Error :=
  let available_indicators :=
    (inst.dts.tables.map (fun t =>
      (t.labels_for_role "http://www.eurofiling.info/xbrl/role/filing-indicator-code").map
        (fun l => l.text))).flatten
  let indicator_facts := inst.facts_filter_qname
    ⟨"filingIndicator", "http://www.eurofiling.info/xbrl/ext/filing-indicators"⟩
  eba_1_6_go available_indicators indicator_facts []

/-- EBA 1.13 - Standalone Document Declaration (lines 95-100; the detail
text is transcribed verbatim, including the source's copy-paste of the
encoding wording). -/
def eba_1_13 (inst : Instance) : List xbrl.Error :=
  if inst.document.standalone.isSome then
    [xbrl.Error.create "[EBA.1.13] Standalone Document Declaration."
      [] (some inst.uri)
      [xbrl.Error.create "XBRL instance documents MUST use \"UTF-8\" encoding. [GFM11, p. 11]"
        [] none [] .INFO] .WARNING]
  else []

/-- EBA 1.14 - @xsd:schemaLocation and @xsd:noNamespaceSchemaLocation
(lines 102-110). -/
def eba_1_14 (inst : Instance) : List xbrl.Error :=
  let attr :=
    match inst.document_element.find_attribute
        ⟨"schemaLocation", "http://www.w3.org/2001/XMLSchema-instance"⟩ with
    | some a => some a
    | none => inst.document_element.find_attribute
        ⟨"noNamespaceSchemaLocation", "http://www.w3.org/2001/XMLSchema-instance"⟩
  match attr with
  | some a =>
    [xbrl.Error.create "[EBA.1.14] @xsd:schemaLocation and @xsd:noNamespaceSchemaLocation."
      [] (some (renderAttr a))
      [xbrl.Error.create "@xsd:schemaLocation or @xsd:noNamespaceSchemaLocation MUST NOT be used."
        [] none [] .INFO] .ERROR]
  | none => []

/-- EBA 1.15 — XInclude (lines 112-119): one finding at the instance URI
whenever the host's `--xinclude` option is on; the instance document itself
is not inspected. -/
def eba_1_15 (inst : Instance) (options : List (String × Bool)) : List xbrl.Error :=
  if optionsGet options "xinclude" == some true then
    let detail_error1 := xbrl.Error.create
      "XBRL instance documents MUST NOT use the XInclude specification (xi:include element)."
      [] none [] .INFO
    let detail_error2 := xbrl.Error.create
      "Hint: Disable XInclude support with the --xinclude=false option."
      [] none [] .OTHER
    [xbrl.Error.create "[EBA.1.15] XInclude."
      [] (some inst.uri) [detail_error1, detail_error2] .ERROR]
  else []

/-- EBA 2.1 - The existence of xml:base is not permitted (lines 123-130):
one finding per element of the tree that carries an `@xml:base`
attribute. -/
def eba_2_1 (inst : Instance) : List xbrl.Error :=
  (dfs inst.document_element).foldr
    (fun elem acc =>
      (match elem.find_attribute ⟨"base", "http://www.w3.org/XML/1998/namespace"⟩ with
       | some xml_base_attr =>
          [xbrl.Error.create "[EBA.2.1] The existence of {xml_base} is not permitted."
            [("xml_base", renderAttr xml_base_attr)] none
            [xbrl.Error.create "The attribute @xml:base MUST NOT appear in any instance document. [EFM13, p. 6-7]."
              [] none [] .INFO] .ERROR]
       | none => []) ++ acc) []

/-- EBA 2.2 - The absolute URL has to be stated for the link:schemaRef
element (lines 132-137).  `next(instance.schema_refs)` raises
`StopIteration` when the instance has no schema reference; on the reporting
branch, building the main error evaluates `schema_refs[0]`, a name that is
not defined in the function, so the branch raises `NameError` before
anything is reported. -/
def eba_2_2 (inst : Instance) : RuleResult :=
  match inst.schema_refs with
  | [] => ([], some Fault.stopIteration)
  | first :: _ =>
    if !(pyStartsWith first.xlink_href "http://") then
      ([], some Fault.nameError)
    else ([], none)

/-- EBA 2.3 - Only one link:schemaRef element is allowed per instance
document (lines 139-144): one finding per schema reference after the
first. -/
def eba_2_3 (inst : Instance) : List xbrl.Error :=
  (inst.schema_refs.drop 1).map (fun schema_ref =>
    xbrl.Error.create "[EBA.2.3] Only one {schemaRef} element is allowed per instance document."
      [("schemaRef", schema_ref.xlink_href)] none
      [xbrl.Error.create "Any reported XBRL instance document MUST contain only one xbrli:xbrl/link:schemaRef element."
        [] none [] .INFO] .ERROR)

/-- EBA 2.4 - The use of link:linkbaseRef elements is not permitted
(lines 146-151). -/
def eba_2_4 (inst : Instance) : List xbrl.Error :=
  inst.linkbase_refs.map (fun linkbase_ref =>
    xbrl.Error.create "[EBA.2.4] The use of {linkbaseRef} element is not permitted."
      [("linkbaseRef", linkbase_ref.xlink_href)] none
      [xbrl.Error.create "Reference from an instance to the taxonomy MUST only be by means of the link:schemaRef element. The element link:linkbaseRef MUST NOT be used in any instance document."
        [] none [] .INFO] .ERROR)

/-- EBA 2.25 - XBRL footnotes are ignored by EBA (lines 153-159): one
warning per footnote resource of every footnote link. -/
def eba_2_25 (inst : Instance) : List xbrl.Error :=
  inst.footnote_links.foldr
    (fun link acc =>
      link.resources.map (fun footnote =>
        xbrl.Error.create "[EBA.2.25] XBRL {footnote} are ignored by EBA."
          [("footnote", footnote.text)] none
          [xbrl.Error.create "Relevant business data MUST only be contained in contexts, units, schemaRef and facts. A footnote MUST not have any impact on the regulatory content of a report."
            [] none [] .INFO] .WARNING) ++ acc) []

/-- The findings loop of `eba_2_6` at a given (already parsed) limit. -/
def eba_2_6_findings (inst : Instance) (max_id_length : Int) : List xbrl.Error :=
  (inst.contexts.filter (fun context => (context.id.length : Int) > max_id_length)).map
    (fun context =>
      xbrl.Error.create "[EBA.2.6] The length of the {id} attribute should be limited to the necessary characters."
        [("id", context.id)] none
        [xbrl.Error.create "Semantics SHOULD NOT be expressed in the xbrli:context/@id attribute. The values of each @id attribute SHOULD be as short as possible."
          [] none [] .INFO] .WARNING)

/-- EBA 2.6 - The length of the @id attribute should be limited to the
necessary characters (lines 163-171).  The limit is
`int(params.get('max-id-length',50))`: the default 50 when the parameter is
absent, and `int(value)` — which raises `ValueError` on a non-numeric
string — when it is present. -/
def eba_2_6 (inst : Instance) (params : List (String × String)) : RuleResult :=
  match lookupA params "max-id-length" with
  | none => (eba_2_6_findings inst 50, none)
  | some s =>
    match pyInt? s with
    | some max_id_length => (eba_2_6_findings inst max_id_length, none)
    | none => ([], some Fault.valueError)

/-- The unused-context finding of `eba_2_7` (lines 178-181). -/
def eba_2_7_unused_error (context : Context) : xbrl.Error :=
  xbrl.Error.create "[EBA.2.7] No unused or duplicated {context} nodes."
    [("context", context.id)] none
    [xbrl.Error.create "Unused xbrli:context nodes SHOULD NOT be present in the instance. [FRIS04]"
      [] none [] .INFO] .WARNING

/-- The duplicated-context finding of `eba_2_7` (lines 185-189), citing the
first context stored in the bucket for the same constraint set. -/
def eba_2_7_dup_error (context first : Context) : xbrl.Error :=
  xbrl.Error.create "[EBA.2.7] No unused or duplicated {context} nodes."
    [("context", context.id)] none
    [xbrl.Error.create "An instance document SHOULD NOT contain duplicated context, unless required for technical reasons, e.g. to support XBRL streaming."
       [] none [] .INFO,
     xbrl.Error.create "Context {context} is a duplicate of context {context2}"
       [("context", context.id), ("context2", first.id)] none [] .OTHER] .WARNING

/-- The duplicated-unit finding of `eba_2_21` (lines 290-294). -/
def eba_2_21_dup_error (unit first : xbrl.Unit) : xbrl.Error :=
  xbrl.Error.create "[EBA.2.21] Duplicates of xbrli:xbrl/xbrli:unit."
    [] (some unit.id)
    [xbrl.Error.create "An XBRL instance SHOULD NOT, in general, contain duplicated units, unless required for technical reasons, e.g. to support XBRL streaming."
       [] none [] .INFO,
     xbrl.Error.create "Unit {unit} is a duplicate of unit {unit2}"
       [("unit", unit.id), ("unit2", first.id)] none [] .OTHER] .WARNING

/-- The equivalence-grouper loop shared by `eba_2_7` (lines 175-191) and
`eba_2_21` (lines 287-296): the entities are visited in document order, the
`aspects_map` dictionary maps each constraint-set signature to the bucket
list created by `setdefault(sig, [])`; a non-empty bucket yields a duplicate
finding citing `duplicates[0]`, an empty bucket receives the current entity
by `duplicates.append(...)`.  `extra` is the per-entity check performed in
the same loop body before the duplicate check (the unused-context check of
`eba_2_7`; nothing for `eba_2_21`). -/
def equivalenceGrouperGo {α σ : Type} [DecidableEq σ] (sig : α → σ)
    (extra : α → List xbrl.Error) (mkDup : α → α → xbrl.Error) :
    List α → List (σ × List α) → List xbrl.Error
  | [], _ => []
  | c :: rest, aspects_map =>
    let pre := extra c
    match lookupA aspects_map (sig c) with
    | some (d0 :: _) =>
        pre ++ [mkDup c d0] ++ equivalenceGrouperGo sig extra mkDup rest aspects_map
    | some [] =>
        pre ++ equivalenceGrouperGo sig extra mkDup rest
          (assocSet aspects_map (sig c) [c])
    | none =>
        pre ++ equivalenceGrouperGo sig extra mkDup rest
          (aspects_map ++ [(sig c, [c])])

/-- EBA 2.7 - No unused or duplicated xbrli:context nodes
(lines 173-191). -/
def eba_2_7 (inst : Instance) : List xbrl.Error :=
  equivalenceGrouperGo xbrl.ConstraintSet.ofContext
    (fun context =>
      if (inst.facts_filter_context context).isEmpty then [eba_2_7_unused_error context]
      else [])
    eba_2_7_dup_error inst.contexts []

/-- EBA 2.9 - Single reporter per instance (lines 193-200).
`next(instance.contexts)` raises `StopIteration` when the instance has no
context. -/
def eba_2_9 (inst : Instance) : RuleResult :=
  match inst.contexts with
  | [] => ([], some Fault.stopIteration)
  | first :: _ =>
    let single_identifier := first.entity_identifier_aspect_value
    ((inst.contexts.filter (fun context =>
        context.entity_identifier_aspect_value != single_identifier)).map
      (fun context =>
        xbrl.Error.create "[EBA.2.9] Single reporter per instance."
          [] (some (renderIdentifier context.entity.identifier))
          [xbrl.Error.create "All xbrli:identifier content and @scheme attributes in an instance MUST be identical. [EFM13, p. 6-8]"
            [] none [] .INFO] .ERROR), none)

/-- EBA 2.10 - The xbrli:period date elements reported must be valid
(lines 202-209). -/
def eba_2_10 (inst : Instance) : List xbrl.Error :=
  inst.contexts.foldr
    (fun context acc =>
      (match context.period.instant? with
       | some i =>
         if i.has_tzinfo || i.member_type_name != "date" then
           [xbrl.Error.create "[EBA.2.10] The {period} date elements reported must be valid."
             [("period", renderPeriod context.period)] none
             [xbrl.Error.create "All xbrli:period date elements MUST be valid against the xs:date data type, and reported without a timezone. [GFM11, p. 16]"
               [] none [] .INFO] .ERROR]
         else []
       | none => []) ++ acc) []

/-- EBA 2.11 - The existence of xbrli:forever is not permitted
(lines 211-217). -/
def eba_2_11 (inst : Instance) : List xbrl.Error :=
  (inst.contexts.filter (fun context => context.period.is_forever)).map
    (fun context =>
      xbrl.Error.create "[EBA.2.11] The existence of {forever} is not permitted."
        [("forever", renderPeriod context.period)] none
        [xbrl.Error.create "The element ‘xbrli:forever’ MUST NOT be used. [GFM11, p. 19]"
          [] none [] .INFO] .ERROR)

/-- EBA 2.13 - XBRL period consistency (lines 219-226).
`next(instance.contexts)` raises `StopIteration` when the instance has no
context. -/
def eba_2_13 (inst : Instance) : RuleResult :=
  match inst.contexts with
  | [] => ([], some Fault.stopIteration)
  | first :: _ =>
    let single_period := first.period_aspect_value
    ((inst.contexts.filter (fun context =>
        !context.period.is_instant || context.period_aspect_value != single_period)).map
      (fun context =>
        xbrl.Error.create "[EBA.2.13] XBRL {period} consistency."
          [("period", renderPeriod context.period)] none
          [xbrl.Error.create "All xbrl periods in a report instance MUST refer to the (same) reference date instant. All xbrl periods MUST be instants."
            [] none [] .INFO] .ERROR), none)

/-- EBA 2.14 - The existence of xbrli:segment is not permitted
(lines 228-234). -/
def eba_2_14 (inst : Instance) : List xbrl.Error :=
  (inst.contexts.filter (fun context => context.entity.segment.isSome)).map
    (fun context =>
      xbrl.Error.create "[EBA.2.14] The existence of {segment} is not permitted."
        [("segment", String.intercalate " " (context.entity.segment.getD []))] none
        [xbrl.Error.create "xbrli:segment elements MUST NOT be used."
          [] none [] .INFO] .ERROR)

/-- EBA 2.15 - Restrictions on the use of the xbrli:scenario element
(lines 236-242): a finding when the scenario exists and has at least one
non-XDT child element. -/
def eba_2_15 (inst : Instance) : List xbrl.Error :=
  (inst.contexts.filter (fun context =>
      match context.scenario with
      | some sc => !sc.non_xdt_child_elements.isEmpty
      | none => false)).map
    (fun context =>
      xbrl.Error.create "[EBA.2.15] Restrictions on the use of the {scenario} element."
        [("scenario", context.id)] none
        [xbrl.Error.create "If an xbrli:scenario element appears in a xbrli:context, then its children MUST only be one or more xbrldi:explicitMember and/or xbrldi:typedMember elements, and MUST NOT contain any other content. [EFM13, p. 6-8]."
          [] none [] .INFO] .ERROR)

/-- The duplicate-fact grouping key `(fact.context, fact.xml_lang)` of
`eba_2_16` (line 253). -/
def xbrl.Fact.factKey (f : xbrl.Fact) : Context × Option String :=
  (f.context, f.xml_lang)

/-- The duplicate-fact finding of `eba_2_16` (lines 257-259). -/
def eba_2_16_dup_error (fact duplicate_fact : xbrl.Fact) : xbrl.Error :=
  xbrl.Error.create "[EBA.2.16] Duplicate (Redundant/Inconsistent) facts {fact} and {fact2}."
    [("fact", renderFact fact), ("fact2", renderFact duplicate_fact)] none
    [xbrl.Error.create "Instances MUST NOT contain duplicate business facts. [FRIS04],[EFM13, p. 6-10]"
      [] none [] .INFO] .ERROR

/-- The multi-unit-fact finding of `eba_2_16` (lines 261-263). -/
def eba_2_16_multiunit_error (fact duplicate_fact : xbrl.Fact) : xbrl.Error :=
  xbrl.Error.create "[EBA.2.16.1] No multi-unit facts {fact} and {fact2}."
    [("fact", renderFact fact), ("fact2", renderFact duplicate_fact)] none
    [xbrl.Error.create "Instances MUST NOT contain business facts which would be duplicates were their units not different."
      [] none [] .INFO] .ERROR

/-- The inner loop of `eba_2_16` over the facts of one concept
(lines 251-263), threading the `duplicate_facts` dictionary.
`duplicate_facts.setdefault(key, fact)` stores the current fact when the key
is new (and then compares equal to it, so nothing is reported); otherwise it
returns the stored fact, and a finding is reported against the current fact:
a duplicate-fact finding when the units are equal, a multi-unit finding when
they differ. -/
def eba_2_16_go :
    List xbrl.Fact → List ((Context × Option String) × xbrl.Fact) → List xbrl.Error
  | [], _ => []
  | fact :: rest, duplicate_facts =>
    match lookupA duplicate_facts fact.factKey with
    | none => eba_2_16_go rest (duplicate_facts ++ [(fact.factKey, fact)])
    | some duplicate_fact =>
      if duplicate_fact = fact then eba_2_16_go rest duplicate_facts
      else
        (if fact.unit = duplicate_fact.unit then [eba_2_16_dup_error fact duplicate_fact]
         else [eba_2_16_multiunit_error fact duplicate_fact]) ++
        eba_2_16_go rest duplicate_facts

/-- EBA 2.16 - Duplicate (Redundant/Inconsistent) facts (lines 246-263):
for every reported concept that is an item and is not the reserved filing
indicator concept, group that concept's facts by (context, language). -/
def eba_2_16 (inst : Instance) : List xbrl.Error :=
  inst.concept_aspect_values.foldr
    (fun concept acc =>
      (if concept.is_item &&
          (concept.target_namespace != "http://www.eurofiling.info/xbrl/ext/filing-indicators"
            || concept.name != "filingIndicator") then
        eba_2_16_go (inst.facts_filter_concept concept) []
      else []) ++ acc) []

/-- EBA 2.17 - The use of the @precision attribute is not permitted
(lines 265-272). -/
def eba_2_17 (inst : Instance) : List xbrl.Error :=
  (inst.child_items.filter (fun fact => pyTruthyOptStr fact.precision)).map
    (fun fact =>
      xbrl.Error.create "[EBA.2.17] The use of the {precision} attribute is not permitted."
        [("precision", "@precision=" ++ fact.precision.getD "")] none
        [xbrl.Error.create "@decimals MUST be used as the only means for expressing precision on a fact. [FRIS 2.8.1.1, EFM13, p.6-12]."
          [] none [] .INFO] .ERROR)

/-- EBA 2.19 - Guidance on use of zeros and non-reported data
(lines 274-281). -/
def eba_2_19 (inst : Instance) : List xbrl.Error :=
  (inst.child_items.filter (fun fact => fact.xsi_nil)).map
    (fun fact =>
      xbrl.Error.create "[EBA.2.19] Guidance on use of zeros and non-reported data."
        [] (some (renderFact fact))
        [xbrl.Error.create "The {xsi_nil} attribute MUST NOT be used in the instance."
          [("xsi_nil", "@xsi:nil")] none [] .INFO] .ERROR)

/-- EBA 2.21 - Duplicates of xbrli:xbrl/xbrli:unit (lines 285-296). -/
def eba_2_21 (inst : Instance) : List xbrl.Error :=
  equivalenceGrouperGo xbrl.ConstraintSet.ofUnit
    (fun _ => []) eba_2_21_dup_error inst.units []

/-- EBA 2.22 - Unused xbrli:xbrl/xbrli:unit (lines 298-304). -/
def eba_2_22 (inst : Instance) : List xbrl.Error :=
  (inst.units.filter (fun unit => (inst.facts_filter_unit unit).isEmpty)).map
    (fun unit =>
      xbrl.Error.create "[EBA.2.22] Unused xbrli:xbrl/xbrli:unit."
        [] (some unit.id)
        [xbrl.Error.create "An XBRL instance SHOULD NOT contain unused xbrli:unit nodes. [FRIS04]"
          [] none [] .INFO] .WARNING)

/-- The first loop of `eba_3_1` over the denomination facts (lines 315-322).
For a monetary fact whose aspect values carry the CUS dimension, the member
name is compared with the ISO 4217 currency of the fact's unit aspect value;
`aspect_values[xbrl.Aspect.UNIT]` raises `KeyError` when the fact has no
unit. -/
def eba_3_1_denomination_go (eba_dim_CUS : xbrl.Concept) :
    List xbrl.Fact → RuleResult
  | [] => ([], none)
  | fact :: rest =>
    if fact.concept.is_monetary then
      match lookupA fact.dimension_values eba_dim_CUS with
      | some currency =>
        match fact.unit with
        | none => ([], some Fault.keyError)
        | some u =>
          let errs :=
            if some currency.name != u.iso4217_currency then
              [xbrl.Error.create "[EBA.3.1] Choice of Currency for Monetary fact {fact}."
                [("fact", renderFact fact)] none
                [xbrl.Error.create "For facts falling under point (b), whose context also includes the dimension “Currency with significant liabilities” (CUS), the currency of the fact (i.e. unit) MUST be consistent with the value given for this dimension."
                  [] none [] .INFO] .ERROR]
            else []
          let res := eba_3_1_denomination_go eba_dim_CUS rest
          (errs ++ res.1, res.2)
      | none => eba_3_1_denomination_go eba_dim_CUS rest
    else eba_3_1_denomination_go eba_dim_CUS rest

/-- The single-currency loop of `eba_3_1` (lines 330-338), threading
`single_unit` (which starts as `None` and is also `None` again whenever it
was assigned from a fact without a unit, exactly as in the source). -/
def eba_3_1_single_currency_go :
    Option xbrl.Unit → List xbrl.Fact → List xbrl.Error
  | _, [] => []
  | single_unit, fact :: rest =>
    if fact.concept.is_monetary then
      match single_unit with
      | none => eba_3_1_single_currency_go fact.unit rest
      | some u =>
        if fact.unit != some u then
          xbrl.Error.create "[EBA.3.1] Choice of Currency for Monetary fact {fact}."
            [("fact", renderFact fact)] none
            [xbrl.Error.create "An instance MUST express all monetary facts which do not fall under point (b) using a single currency."
              [] none [] .INFO] .ERROR ::
          eba_3_1_single_currency_go single_unit rest
        else eba_3_1_single_currency_go single_unit rest
    else eba_3_1_single_currency_go single_unit rest

/-- EBA 3.1 - Choice of Currency for Monetary facts (lines 306-338).  The
rule starts by resolving three taxonomy-specific concepts; a failed lookup
means the loaded taxonomy does not match the script's assumptions, which is
modelled — following the spec's error-handling design — as a fatal
configuration fault rather than a finding. -/
def eba_3_1 (inst : Instance) : RuleResult :=
  match inst.dts.resolve_concept ⟨"CCA", "http://www.eba.europa.eu/xbrl/crr/dict/dim"⟩,
        inst.dts.resolve_concept ⟨"CUS", "http://www.eba.europa.eu/xbrl/crr/dict/dim"⟩,
        inst.dts.resolve_concept ⟨"x1", "http://www.eba.europa.eu/xbrl/crr/dict/dom/CA"⟩ with
  | some eba_dim_CCA, some eba_dim_CUS, some eba_CA_x1 =>
    let denomination_facts := inst.facts.filter
      (fun fact => fact.dimension_values.contains (eba_dim_CCA, eba_CA_x1))
    let part1 := eba_3_1_denomination_go eba_dim_CUS denomination_facts
    match part1.2 with
    | some f => (part1.1, some f)
    | none =>
      let monetary_units := inst.units.filter (fun unit => unit.is_monetary)
      let part2 :=
        if monetary_units.length > 1 then
          eba_3_1_single_currency_go none
            (inst.child_items.filter
              (fun fact => !fact.dimension_values.contains (eba_dim_CCA, eba_CA_x1)))
        else []
      (part1.1 ++ part2, none)
  | _, _, _ => ([], some Fault.conceptResolutionFailure)

/-- EBA 3.2 - Non-monetary numeric units (lines 340-347): for a numeric
non-monetary fact, `fact.unit.aspect_value` raises `AttributeError` when the
fact has no unit (`fact.unit` is `None`). -/
def eba_3_2 (inst : Instance) : RuleResult :=
  eba_3_2_go inst.child_items
where
  eba_3_2_go : List xbrl.Fact → RuleResult
  | [] => ([], none)
  | fact :: rest =>
    if fact.concept.is_numeric && !fact.concept.is_monetary then
      match fact.unit with
      | none => ([], some Fault.attributeError)
      | some u =>
        let errs :=
          if !u.is_pure then
            [xbrl.Error.create "[EBA.3.2] Non-monetary numeric units."
              [] (some (renderFact fact))
              [xbrl.Error.create "An instance MUST express its non-monetary numeric values using the “pure” unit, a unit element with a single measure element as its only child. The local part of the measure MUST be \"pure\" and the namespace prefix MUST resolve to the namespace: http://www.xbrl.org/2003/instance."
                [] none [] .INFO] .ERROR]
          else []
        let res := eba_3_2_go rest
        (errs ++ res.1, res.2)
    else eba_3_2_go rest

/-- The prefixes dereferenced by one element of the tree — its own prefix,
the prefix of its schema-typed qualified-name value if any, and the same for
each of its attributes (the body of the first loop of `eba_3_4`,
lines 352-361). -/
def elementUsedPrefixes (elem : xml.Element) : List String :=
  [elem.pfx] ++
  (match elem.schema_actual_value with
   | some (.qnameVal p _) => [p]
   | _ => []) ++
  elem.attributes.foldr
    (fun attr acc =>
      [attr.pfx] ++
      (match attr.schema_actual_value with
       | some (.qnameVal p _) => [p]
       | _ => []) ++ acc) []

/-- EBA 3.4 - Unused namespace prefixes (lines 349-367). -/
def eba_3_4 (inst : Instance) : List xbrl.Error :=
  let used_prefixes := ((dfs inst.document_element).map elementUsedPrefixes).flatten
  (inst.document_element.namespace_attributes.filter (fun nsattr =>
      nsattr.local_name != "xmlns" && !used_prefixes.contains nsattr.local_name)).map
    (fun nsattr =>
      xbrl.Error.create "[EBA.3.4] Unused namespace prefix \x7bprefix\x7d."
        [("prefix", renderNsAttr nsattr)] none
        [xbrl.Error.create "Namespace prefixes that are not used SHOULD not be declared in the instance document. [FRIS04]"
          [] none [] .INFO] .WARNING)

/-- The canonical namespace bindings collected by `eba_3_5`
(lines 371-376): for each taxonomy schema, the first namespace declaration
binding the schema's target namespace records its prefix (later schemas for
the same namespace overwrite earlier entries, as Python dict assignment
does). -/
def eba_3_5_namespace_bindings (schemas : List xbrl.TaxonomySchema) :
    List (String × String) :=
  schemas.foldl
    (fun namespace_bindings schema =>
      match schema.namespace_attributes.find? (fun nsattr =>
          nsattr.local_name != "xmlns" &&
          nsattr.normalized_value == schema.target_namespace) with
      | some nsattr => assocSet namespace_bindings schema.target_namespace nsattr.local_name
      | none => namespace_bindings) []

/-- EBA 3.5 - Re-use of canonical namespace prefixes (lines 369-382). -/
def eba_3_5 (inst : Instance) : List xbrl.Error :=
  let namespace_bindings := eba_3_5_namespace_bindings inst.dts.taxonomy_schemas
  (inst.document_element.namespace_attributes.filter (fun nsattr =>
      nsattr.local_name != "xmlns" &&
      nsattr.local_name != (lookupA namespace_bindings nsattr.normalized_value).getD nsattr.local_name)).map
    (fun nsattr =>
      xbrl.Error.create "[EBA.3.5] Re-use of canonical namespace prefix \x7bprefix\x7d."
        [("prefix", renderNsAttr nsattr)] none
        [xbrl.Error.create "Namespace prefixes, where used in instance documents, SHOULD mirror the namespace prefixes as defined by their schema author(s). [FRIS04]"
          [] none [] .INFO] .WARNING)

/-- EBA 3.6 - LEI and other entity codes (lines 384-390). -/
def eba_3_6 (inst : Instance) : List xbrl.Error :=
  (inst.contexts.filter (fun context =>
      context.entity_identifier_aspect_value.scheme == "http://standard.iso.org/iso/17442")).map
    (fun context =>
      xbrl.Error.create "[EBA.3.6] LEI and other entity codes."
        [] (some (renderIdentifier context.entity.identifier))
        [xbrl.Error.create "Producers of instance documents are encouraged to switch as quickly as possible to producing the correct form “http://standards.iso.org/iso/17442”."
          [] none [] .INFO] .WARNING)

/-- EBA 3.7 - Unused @id attribute on facts (lines 392-408). -/
def eba_3_7 (inst : Instance) : List xbrl.Error :=
  let used_ids :=
    inst.footnote_links.foldr
      (fun footnote_link acc =>
        footnote_link.locators.foldr
          (fun loc inner =>
            let fragment := (pySplitOn loc.xlink_href '#').getLastD loc.xlink_href
            (if pyContainsChar fragment '(' then [] else [fragment]) ++ inner) [] ++ acc) []
  (inst.child_items.filter (fun fact =>
      pyTruthyOptStr fact.id && !used_ids.contains (fact.id.getD ""))).map
    (fun fact =>
      xbrl.Error.create "[EBA.3.7] Unused {id} attribute on fact."
        [("id", fact.id.getD "")] none
        [xbrl.Error.create "The instance SHOULD NOT include unused @id attributes on facts."
          [] none [] .INFO] .WARNING)

/-- The findings loop of `eba_3_8` at a given (already parsed) limit. -/
def eba_3_8_findings (inst : Instance) (max_string_length : Int) : List xbrl.Error :=
  (inst.child_items.filter (fun fact =>
      match fact.schema_actual_value with
      | some (.stringVal v) => (v.length : Int) > max_string_length
      | _ => false)).map
    (fun fact =>
      xbrl.Error.create "[EBA.3.8] Length of strings in instance."
        [] (some (renderFact fact))
        [xbrl.Error.create "The values of each string SHOULD be as short as possible."
          [] none [] .INFO] .WARNING)

/-- EBA 3.8 - Length of strings in instance (lines 410-418).  The limit is
`int(params.get('max-string-length',100))`: the default 100 when absent,
`int(value)` — raising `ValueError` on a non-numeric string — when
present. -/
def eba_3_8 (inst : Instance) (params : List (String × String)) : RuleResult :=
  match lookupA params "max-string-length" with
  | none => (eba_3_8_findings inst 100, none)
  | some s =>
    match pyInt? s with
    | some max_string_length => (eba_3_8_findings inst max_string_length, none)
    | none => ([], some Fault.valueError)

/-- EBA 3.9 - Namespace prefix declarations restricted to the document
element (lines 420-428): the document element itself is skipped by the
initial `next(elements)`. -/
def eba_3_9 (inst : Instance) : List xbrl.Error :=
  ((dfs inst.document_element).drop 1).foldr
    (fun elem acc =>
      elem.namespace_attributes.map (fun nsattr =>
        xbrl.Error.create "[EBA.3.9] Namespace prefix declaration \x7bprefix\x7d restricted to the document element."
          [("prefix", renderNsAttr nsattr)] none
          [xbrl.Error.create "Namespace prefixes declarations SHOULD be restricted to the document element."
            [] none [] .INFO] .WARNING) ++ acc) []

/-- The loop of `eba_3_10` (lines 433-437), threading the `used_namespaces`
dictionary (namespace URI → first declaring attribute). -/
def eba_3_10_go :
    List xml.NsAttr → List (String × xml.NsAttr) → List xbrl.Error
  | [], _ => []
  | nsattr :: rest, used_namespaces =>
    match lookupA used_namespaces nsattr.normalized_value with
    | none => eba_3_10_go rest (used_namespaces ++ [(nsattr.normalized_value, nsattr)])
    | some first =>
      (if first != nsattr then
        [xbrl.Error.create "[EBA.3.10] Avoid multiple prefix declarations \x7bprefix\x7d and \x7bprefix2\x7d for the same namespace {namespace}."
          [("prefix", renderNsAttr nsattr), ("prefix2", renderNsAttr first),
           ("namespace", nsattr.normalized_value)] none
          [xbrl.Error.create "Namespaces used in the document SHOULD be associated to a single namespace prefix."
            [] none [] .INFO] .WARNING]
      else []) ++ eba_3_10_go rest used_namespaces

/-- EBA 3.10 - Avoid multiple prefix declarations for the same namespace
(lines 430-437). -/
def eba_3_10 (inst : Instance) : List xbrl.Error :=
  eba_3_10_go inst.document_element.namespace_attributes []

/-- Sequencing of rule predicate calls in `check_eba_filing_rules`: the
accumulated findings so far plus the next call's findings, unless an earlier
call already raised, in which case the remaining calls never run. -/
def seqRule (acc : RuleResult) (next : RuleResult) : RuleResult :=
  match acc with
  | (log, some f) => (log, some f)
  | (log, none) => (log ++ next.1, next.2)

/-- A rule that reports findings but has no raising code path. -/
def liftRule (errs : List xbrl.Error) : RuleResult :=
  (errs, none)

/-- `check_eba_filing_rules(job, instance)` (lines 439-550): the fixed-order
sequence of rule predicate invocations, reading `job.script_params` and
`job.options`; the result is the ordered list of findings appended to
`job.error_log`, and the first exception raised by a predicate, if any
(which aborts the remaining predicates). -/
def check_eba_filing_rules (job : Job) (inst : Instance) : RuleResult :=
  [ liftRule (eba_1_4 inst),
    liftRule (eba_1_6 inst),
    liftRule (eba_1_13 inst),
    liftRule (eba_1_14 inst),
    liftRule (eba_1_15 inst job.options),
    liftRule (eba_2_1 inst),
    eba_2_2 inst,
    liftRule (eba_2_3 inst),
    liftRule (eba_2_4 inst),
    liftRule (eba_2_25 inst),
    eba_2_6 inst job.script_params,
    liftRule (eba_2_7 inst),
    eba_2_9 inst,
    liftRule (eba_2_10 inst),
    liftRule (eba_2_11 inst),
    eba_2_13 inst,
    liftRule (eba_2_14 inst),
    liftRule (eba_2_15 inst),
    liftRule (eba_2_16 inst),
    liftRule (eba_2_17 inst),
    liftRule (eba_2_19 inst),
    liftRule (eba_2_21 inst),
    liftRule (eba_2_22 inst),
    eba_3_1 inst,
    eba_3_2 inst,
    liftRule (eba_3_4 inst),
    liftRule (eba_3_5 inst),
    liftRule (eba_3_6 inst),
    liftRule (eba_3_7 inst),
    eba_3_8 inst job.script_params,
    liftRule (eba_3_9 inst),
    liftRule (eba_3_10 inst) ].foldl seqRule ([], none)

/-- `on_xbrl_finished_dts(job, dts)` (lines 552-554): the one-shot option
toggle enabling UTR validation at taxonomy-load completion. -/
def on_xbrl_finished_dts (job : Job) : Job :=
  { job with options := assocSet job.options "utr" true }

/-- `on_xbrl_finished(job, instance)` (lines 556-567): when the host signals
that XBRL 2.1 validation was not successful (`instance is None`), no rule
predicate runs; the previously accumulated findings are re-wrapped as
children of one synthetic `[EBA.1.9] Valid XML-XBRL.` finding and the log is
cleared before reporting it.  Otherwise the rule predicates run and their
findings are appended to the log.  The result is the job with its final
error log, and the first fault raised during the rule sequence, if any. -/
def on_xbrl_finished (job : Job) (inst : Option Instance) : Job × Option Fault :=
  match inst with
  | some i =>
    let res := check_eba_filing_rules job i
    ({ job with error_log := job.error_log ++ res.1 }, res.2)
  | none =>
    let xbrl_errors :=
      xbrl.Error.create "Instance documents MUST be XBRL 2.1 and XBRL Dimensions 1.0 valid. [EFM11, p. 6-8]"
        [] none [] .INFO :: job.error_log
    let main_error := xbrl.Error.create "[EBA.1.9] Valid XML-XBRL."
      [] none xbrl_errors .ERROR
    ({ job with error_log := [main_error] }, none)

/-- The later-duplicate occurrences of a traversal: the entities whose
signature has already been seen (either in `seen` or earlier in the list);
the first entity of each signature group is skipped and its signature
recorded. -/
def dupOccurrencesBy {α σ : Type} [DecidableEq σ] (sig : α → σ) :
    List α → List σ → List α
  | [], _ => []
  | c :: rest, seen =>
    if sig c ∈ seen then c :: dupOccurrencesBy sig rest seen
    else dupOccurrencesBy sig rest (sig c :: seen)

/-- Recognizer for the duplicated-context findings of `eba_2_7` (they are
the findings with the `Context {context} is a duplicate of context
{context2}` detail child; the unused-context findings of the same rule do
not carry it). -/
def isDuplicateContextFinding (e : xbrl.Error) : Bool :=
  e.children.any (fun d =>
    d.message == "Context {context} is a duplicate of context {context2}")

/-- Recognizer for the duplicated-unit findings of `eba_2_21`. -/
def isDuplicateUnitFinding (e : xbrl.Error) : Bool :=
  e.children.any (fun d =>
    d.message == "Unit {unit} is a duplicate of unit {unit2}")

/-- A minimal well-formed document element used by the concrete instances
below. -/
def leafElem : xml.Element :=
  .mk "http://www.xbrl.org/2003/instance" "xbrli" "xbrl" [] [] none []

/-- A concrete entity identifier. -/
def identifierW : xbrl.Identifier :=
  ⟨"http://standards.iso.org/iso/17442", "LEI0000000000000000"⟩

/-- A concrete instant context. -/
def ctxW : Context :=
  ⟨"c1", ⟨identifierW, none⟩, .instant ⟨"2020-12-31", false, "date"⟩, none⟩

/-- A concrete monetary unit. -/
def unitW : xbrl.Unit :=
  ⟨"u1", ["iso4217:EUR"], true, false, some "EUR"⟩

/-- A concrete document metadata value. -/
def docW : Document := ⟨"UTF-8", none⟩

/-- A concrete instance with one context and one unit (no two contexts and
no two units, hence no duplicate signatures). -/
def instW1 : Instance :=
  { uri := "file:///filing1.xbrl", document := docW, document_element := leafElem,
    schema_refs := [⟨"http://example.com/entry.xsd"⟩], linkbase_refs := [],
    footnote_links := [], contexts := [ctxW], units := [unitW], facts := [],
    dts := ⟨[], [], []⟩ }

/-- The evolution of the `duplicate_facts` dictionary of `eba_2_16`:
`setdefault(key, fact)` inserts the current fact only when the key is new
and never replaces an existing entry. -/
def eba_2_16_state :
    List xbrl.Fact → List ((Context × Option String) × xbrl.Fact) →
      List ((Context × Option String) × xbrl.Fact)
  | [], m => m
  | fact :: rest, m =>
    match lookupA m fact.factKey with
    | none => eba_2_16_state rest (m ++ [(fact.factKey, fact)])
    | some _ => eba_2_16_state rest m

/-- A concrete monetary concept. -/
def conceptW : xbrl.Concept :=
  ⟨"Assets", "http://example.com/taxonomy", true, true, true⟩

/-- A second concrete monetary unit (different currency). -/
def unitW2 : xbrl.Unit :=
  ⟨"u2", ["iso4217:USD"], true, false, some "USD"⟩

/-- Three concrete facts of one concept sharing context and language: the
first in EUR, the second and third in USD. -/
def factW1 : xbrl.Fact :=
  ⟨0, conceptW, ctxW, some unitW, none, "100", none, false, none, [], none⟩

def factW2 : xbrl.Fact :=
  ⟨1, conceptW, ctxW, some unitW2, none, "200", none, false, none, [], none⟩

def factW3 : xbrl.Fact :=
  ⟨2, conceptW, ctxW, some unitW2, none, "300", none, false, none, [], none⟩

/-- A concrete instance holding the three facts above. -/
def instW2 : Instance :=
  { uri := "file:///filing2.xbrl", document := docW, document_element := leafElem,
    schema_refs := [⟨"http://example.com/entry.xsd"⟩], linkbase_refs := [],
    footnote_links := [], contexts := [ctxW], units := [unitW, unitW2],
    facts := [factW1, factW2, factW3], dts := ⟨[], [], []⟩ }

/-- A concrete instance whose single schema reference is a relative URL (it
does not start with `http://`), driving `eba_2_2` into its error-reporting
branch. -/
def instRelativeSchemaRef : Instance :=
  { uri := "file:///filing3.xbrl", document := docW, document_element := leafElem,
    schema_refs := [⟨"reports/entry.xsd"⟩], linkbase_refs := [],
    footnote_links := [], contexts := [ctxW], units := [], facts := [],
    dts := ⟨[], [], []⟩ }

/-- A concrete instance with a schema reference but zero contexts. -/
def instNoContexts : Instance :=
  { uri := "file:///filing4.xbrl", document := docW, document_element := leafElem,
    schema_refs := [⟨"http://example.com/entry.xsd"⟩], linkbase_refs := [],
    footnote_links := [], contexts := [], units := [], facts := [],
    dts := ⟨[], [], []⟩ }

/-- A concrete instance with zero contexts and zero schema references. -/
def instEmptyCollections : Instance :=
  { uri := "file:///filing5.xbrl", document := docW, document_element := leafElem,
    schema_refs := [], linkbase_refs := [], footnote_links := [],
    contexts := [], units := [], facts := [], dts := ⟨[], [], []⟩ }

/-- The synthetic detail finding of the EBA 1.9 wrapper. -/
def eba_1_9_detail : xbrl.Error :=
  xbrl.Error.create
    "Instance documents MUST be XBRL 2.1 and XBRL Dimensions 1.0 valid. [EFM11, p. 6-8]"
    [] none [] .INFO

/-- The synthetic top-level EBA 1.9 finding wrapping a previously
accumulated log. -/
def eba_1_9_main (log : List xbrl.Error) : xbrl.Error :=
  xbrl.Error.create "[EBA.1.9] Valid XML-XBRL." [] none (eba_1_9_detail :: log) .ERROR

mutual
/-- The depth-first pre-order sequence of a subtree as the spec words it:
the root element followed by the pre-order sequences of its child subtrees
in document order. -/
def preorderElem : xml.Element → List xml.Element
  | .mk ns p n atts nsatts v ch =>
    .mk ns p n atts nsatts v ch :: preorderForest ch

/-- Pre-order traversal of a forest of sibling subtrees, in document
order. -/
def preorderForest : List xml.Element → List xml.Element
  | [] => []
  | e :: rest => preorderElem e ++ preorderForest rest
end

/-- A concrete leaf element named `a`. -/
def elemA : xml.Element := .mk "urn:t" "t" "a" [] [] none []

/-- A concrete leaf element named `b`. -/
def elemB : xml.Element := .mk "urn:t" "t" "b" [] [] none []

/-- A concrete root element with children `a`, `b` in document order. -/
def elemRoot : xml.Element := .mk "urn:t" "t" "root" [] [] none [elemA, elemB]

/-- Two consecutive executions of the full predicate sequence over the same
job inputs and the same unmodified instance model. -/
def runPredicateSequenceTwice (job : Job) (inst : Instance) :
    RuleResult × RuleResult :=
  (check_eba_filing_rules job inst, check_eba_filing_rules job inst)

/-- A context whose id is longer than 50 characters. -/
def ctxLong : Context :=
  ⟨"context_with_a_very_long_identifier_that_exceeds_the_default_limit",
   ⟨identifierW, none⟩, .instant ⟨"2020-12-31", false, "date"⟩, none⟩

/-- A concrete instance with one context whose id exceeds 50 characters. -/
def instLongId : Instance :=
  { uri := "file:///filing6.xbrl", document := docW, document_element := leafElem,
    schema_refs := [⟨"http://example.com/entry.xsd"⟩], linkbase_refs := [],
    footnote_links := [], contexts := [ctxLong], units := [], facts := [],
    dts := ⟨[], [], []⟩ }

/-- The number of XInclude constructs (`xi:include` elements) occurring in
the instance document, following the claim's words. -/
def countXIncludeOccurrences (inst : Instance) : Nat :=
  ((dfs inst.document_element).filter (fun e =>
    e.namespace_name == "http://www.w3.org/2001/XInclude"
      && e.local_name == "include")).length

lemma xml.Element.sizeOf_element_children (e : xml.Element) :
    sizeOf e.element_children < sizeOf e := by
  cases e with
  | mk ns p n atts nsatts v ch =>
    simp only [xml.Element.element_children, xml.Element.mk.sizeOf_spec]
    omega

lemma List.sizeOf_append_elem (l1 l2 : List xml.Element) :
    sizeOf (l1 ++ l2) + 1 = sizeOf l1 + sizeOf l2 := by
  induction l1 with
  | nil => simp only [List.nil_append, List.nil.sizeOf_spec]; omega
  | cons a t ih => simp only [List.cons_append, List.cons.sizeOf_spec]; omega

lemma List.sizeOf_reverse_elem (l : List xml.Element) :
    sizeOf l.reverse = sizeOf l := by
  induction l with
  | nil => rfl
  | cons a t ih =>
    rw [List.reverse_cons]
    have h := List.sizeOf_append_elem t.reverse [a]
    simp only [List.cons.sizeOf_spec, List.nil.sizeOf_spec] at *
    omega

lemma lookupA_append_of_none {α β : Type} [DecidableEq α]
    {m : List (α × β)} {k' : α} (k : α) (v : β) (h : lookupA m k' = none) :
    lookupA (m ++ [(k, v)]) k' = if k = k' then some v else none := by
  induction m with
  | nil => rfl
  | cons kv rest ih =>
    obtain ⟨k0, v0⟩ := kv
    by_cases h0 : k0 = k'
    · rw [lookupA, if_pos h0] at h; cases h
    · rw [lookupA, if_neg h0] at h
      rw [List.cons_append, lookupA, if_neg h0, ih h]

lemma lookupA_append_of_some {α β : Type} [DecidableEq α]
    {m : List (α × β)} {k' : α} {w : β} (k : α) (v : β)
    (h : lookupA m k' = some w) :
    lookupA (m ++ [(k, v)]) k' = some w := by
  induction m with
  | nil => cases h
  | cons kv rest ih =>
    obtain ⟨k0, v0⟩ := kv
    by_cases h0 : k0 = k'
    · rw [lookupA, if_pos h0] at h
      rw [List.cons_append, lookupA, if_pos h0, h]
    · rw [lookupA, if_neg h0] at h
      rw [List.cons_append, lookupA, if_neg h0, ih h]

lemma find?_singleton {α : Type} (p : α → Bool) (a : α) :
    [a].find? p = if p a then some a else none := by
  cases h : p a <;> simp [List.find?_cons, h]

lemma dupOccurrencesBy_congr {α σ : Type} [DecidableEq σ] (sig : α → σ) :
    ∀ (l : List α) (seen1 seen2 : List σ),
      (∀ s, s ∈ seen1 ↔ s ∈ seen2) →
      dupOccurrencesBy sig l seen1 = dupOccurrencesBy sig l seen2
  | [], _, _, _ => rfl
  | c :: rest, seen1, seen2, h => by
    by_cases hc : sig c ∈ seen1
    · rw [dupOccurrencesBy, dupOccurrencesBy, if_pos hc, if_pos ((h _).mp hc),
        dupOccurrencesBy_congr sig rest seen1 seen2 h]
    · rw [dupOccurrencesBy, dupOccurrencesBy, if_neg hc,
        if_neg (fun hx => hc ((h _).mpr hx))]
      exact dupOccurrencesBy_congr sig rest _ _
        (fun s => by simp only [List.mem_cons, h s])

lemma equivalenceGrouperGo_filter {α σ : Type} [DecidableEq σ] (sig : α → σ)
    (extra : α → List xbrl.Error) (mkDup : α → α → xbrl.Error)
    (isDup : xbrl.Error → Bool)
    (hextra : ∀ c, (extra c).filter isDup = [])
    (hdup : ∀ c d, isDup (mkDup c d) = true)
    (full : List α) :
    ∀ (rest pref : List α) (m : List (σ × List α)),
      full = pref ++ rest →
      (∀ k, lookupA m k = (pref.find? (fun d => sig d == k)).map (fun d => [d])) →
      (equivalenceGrouperGo sig extra mkDup rest m).filter isDup
        = (dupOccurrencesBy sig rest (pref.map sig)).map
            (fun c => mkDup c ((full.find? (fun d => sig d == sig c)).getD c))
  | [], _, _, _, _ => rfl
  | c :: rest', pref, m, hfull, hm => by
    have hkey := hm (sig c)
    cases hfind : pref.find? (fun d => sig d == sig c) with
    | some c0 =>
      rw [hfind] at hkey
      have hkey2 : lookupA m (sig c) = some [c0] := hkey
      have hc0mem : c0 ∈ pref := List.mem_of_find?_eq_some hfind
      have hc0sig : sig c0 = sig c := by
        have h := List.find?_some hfind
        simpa using h
      have hseen : sig c ∈ pref.map sig :=
        List.mem_map.mpr ⟨c0, hc0mem, hc0sig⟩
      have hfullfind : full.find? (fun d => sig d == sig c) = some c0 := by
        rw [hfull, List.find?_append, hfind]; rfl
      have hm' : ∀ k,
          lookupA m k = ((pref ++ [c]).find? (fun d => sig d == k)).map (fun d => [d]) := by
        intro k
        rw [List.find?_append]
        cases hpk : pref.find? (fun d => sig d == k) with
        | some d => rw [hm k, hpk]; rfl
        | none =>
          rw [hm k, hpk, find?_singleton]
          have hne : (sig c == k) = false := by
            apply beq_eq_false_iff_ne.mpr
            intro hkc
            rw [hkc] at hfind
            rw [hfind] at hpk
            cases hpk
          rw [hne]
          rfl
      have hfull' : full = (pref ++ [c]) ++ rest' := by
        rw [hfull, List.append_assoc]; rfl
      have ih := equivalenceGrouperGo_filter sig extra mkDup isDup hextra hdup full
        rest' (pref ++ [c]) m hfull' hm'
      simp only [equivalenceGrouperGo, hkey2]
      simp only [List.filter_append, hextra, List.nil_append]
      have h1 : List.filter isDup [mkDup c c0] = [mkDup c c0] := by
        simp [hdup]
      rw [h1, dupOccurrencesBy, if_pos hseen, List.map_cons, hfullfind]
      rw [ih]
      have hcongr : dupOccurrencesBy sig rest' ((pref ++ [c]).map sig)
          = dupOccurrencesBy sig rest' (pref.map sig) := by
        apply dupOccurrencesBy_congr
        intro s
        simp only [List.map_append, List.map_cons, List.map_nil, List.mem_append,
          List.mem_cons, List.not_mem_nil, or_false]
        constructor
        · intro h
          cases h with
          | inl h => exact h
          | inr h => rw [h]; exact hseen
        · intro h; exact Or.inl h
      rw [hcongr]
      rfl
    | none =>
      rw [hfind] at hkey
      have hkey2 : lookupA m (sig c) = none := hkey
      have hnotseen : sig c ∉ pref.map sig := by
        intro hmem
        obtain ⟨d, hd, hds⟩ := List.mem_map.mp hmem
        have : pref.find? (fun d => sig d == sig c) ≠ none := by
          intro hx
          have := List.find?_eq_none.mp hx d hd
          exact this (by simpa using hds)
        exact this hfind
      have hm' : ∀ k,
          lookupA (m ++ [(sig c, [c])]) k
            = ((pref ++ [c]).find? (fun d => sig d == k)).map (fun d => [d]) := by
        intro k
        rw [List.find?_append]
        cases hpk : pref.find? (fun d => sig d == k) with
        | some d =>
          have := hm k
          rw [hpk] at this
          rw [lookupA_append_of_some _ _ this]
          rfl
        | none =>
          have hmk : lookupA m k = none := by rw [hm k, hpk]; rfl
          rw [lookupA_append_of_none _ _ hmk, find?_singleton]
          by_cases hkc : sig c = k
          · rw [if_pos hkc]
            have : (sig c == k) = true := beq_iff_eq.mpr hkc
            rw [this]
            rfl
          · rw [if_neg hkc]
            have : (sig c == k) = false := beq_eq_false_iff_ne.mpr hkc
            rw [this]
            rfl
      have hfull' : full = (pref ++ [c]) ++ rest' := by
        rw [hfull, List.append_assoc]; rfl
      have ih := equivalenceGrouperGo_filter sig extra mkDup isDup hextra hdup full
        rest' (pref ++ [c]) (m ++ [(sig c, [c])]) hfull' hm'
      simp only [equivalenceGrouperGo, hkey2]
      simp only [List.filter_append, hextra, List.nil_append]
      rw [dupOccurrencesBy, if_neg hnotseen]
      rw [ih]
      apply congrArg (fun l => List.map _ l)
      apply dupOccurrencesBy_congr
      intro s
      simp only [List.map_append, List.map_cons, List.map_nil, List.mem_append,
        List.mem_cons, List.not_mem_nil, or_false]
      constructor
      · intro h
        cases h with
        | inl h => exact Or.inr h
        | inr h => exact Or.inl h
      · intro h
        cases h with
        | inl h => exact Or.inr h
        | inr h => exact Or.inl h

lemma dupOccurrencesBy_countP {α σ : Type} [DecidableEq σ] (sig : α → σ) (s : σ) :
    ∀ (l : List α) (seen : List σ),
      (dupOccurrencesBy sig l seen).countP (fun c => sig c == s)
        = l.countP (fun c => sig c == s) - (if s ∈ seen then 0 else 1)
  | [], seen => by
    rw [dupOccurrencesBy]
    simp only [List.countP_nil]
    by_cases hseen : s ∈ seen
    · rw [if_pos hseen]
    · rw [if_neg hseen]
  | c :: rest, seen => by
    by_cases hcs : sig c = s
    · have hb : (sig c == s) = true := beq_iff_eq.mpr hcs
      by_cases hseen : s ∈ seen
      · rw [dupOccurrencesBy, if_pos (by rw [hcs]; exact hseen)]
        rw [List.countP_cons, List.countP_cons,
          dupOccurrencesBy_countP sig s rest seen, hb]
        simp
        rw [if_pos hseen]
        omega
      · rw [dupOccurrencesBy, if_neg (by rw [hcs]; exact hseen)]
        rw [dupOccurrencesBy_countP sig s rest (sig c :: seen)]
        rw [List.countP_cons, hb]
        rw [if_pos (by rw [hcs]; exact List.mem_cons_self s seen), if_neg hseen]
        simp
    · have hb : (sig c == s) = false := beq_eq_false_iff_ne.mpr hcs
      by_cases hcseen : sig c ∈ seen
      · rw [dupOccurrencesBy, if_pos hcseen]
        rw [List.countP_cons, List.countP_cons,
          dupOccurrencesBy_countP sig s rest seen, hb]
        simp only [Bool.false_eq_true, if_false]
        omega
      · rw [dupOccurrencesBy, if_neg hcseen]
        rw [dupOccurrencesBy_countP sig s rest (sig c :: seen)]
        rw [List.countP_cons, hb]
        simp only [Bool.false_eq_true, if_false]
        have hsnotc : ¬ s = sig c := fun h => hcs h.symm
        by_cases hseen : s ∈ seen
        · rw [if_pos (List.mem_cons_of_mem _ hseen), if_pos hseen]
          simp
        · rw [if_neg (by
            simp only [List.mem_cons]
            rintro (h | h)
            · exact hsnotc h
            · exact hseen h), if_neg hseen]
          simp

lemma dupOccurrencesBy_eq_nil {α σ : Type} [DecidableEq σ] (sig : α → σ) :
    ∀ (l : List α) (seen : List σ),
      (∀ c ∈ l, sig c ∉ seen) →
      l.Pairwise (fun a b => sig a ≠ sig b) →
      dupOccurrencesBy sig l seen = []
  | [], _, _, _ => rfl
  | c :: rest, seen, hns, hpw => by
    rw [dupOccurrencesBy, if_neg (hns c (List.mem_cons_self c rest))]
    apply dupOccurrencesBy_eq_nil
    · intro d hd
      simp only [List.mem_cons]
      rintro (h | h)
      · exact (List.pairwise_cons.mp hpw).1 d hd h.symm
      · exact hns d (List.mem_cons_of_mem _ hd) h
    · exact (List.pairwise_cons.mp hpw).2

lemma isDuplicateContextFinding_unused (c : Context) :
    isDuplicateContextFinding (eba_2_7_unused_error c) = false := rfl

lemma isDuplicateContextFinding_dup (c d : Context) :
    isDuplicateContextFinding (eba_2_7_dup_error c d) = true := rfl

lemma isDuplicateUnitFinding_dup (u w : xbrl.Unit) :
    isDuplicateUnitFinding (eba_2_21_dup_error u w) = true := rfl

/-- **C1**: the duplicate-context check of `eba_2_7` reports, in document
order, exactly one duplicated-context finding for every context that is not
the first of its constraint-set signature group, each citing the first
context of that group in document order as the canonical one; when no two
contexts have equal constraint-set signatures it reports no
duplicated-context finding; and for each signature the number of findings is
the group size minus one.  The analogous three statements hold for the
duplicate-unit check of `eba_2_21` over units. -/
theorem eba_2_7_eba_2_21_duplicate_group_reporting (inst : Instance) :
    ((eba_2_7 inst).filter isDuplicateContextFinding
       = (dupOccurrencesBy xbrl.ConstraintSet.ofContext inst.contexts []).map
           (fun c => eba_2_7_dup_error c
             ((inst.contexts.find? (fun d =>
                 xbrl.ConstraintSet.ofContext d == xbrl.ConstraintSet.ofContext c)).getD c)))
  ∧ (inst.contexts.Pairwise
       (fun a b => xbrl.ConstraintSet.ofContext a ≠ xbrl.ConstraintSet.ofContext b)
     → (eba_2_7 inst).filter isDuplicateContextFinding = [])
  ∧ (∀ s : xbrl.ConstraintSet,
       (dupOccurrencesBy xbrl.ConstraintSet.ofContext inst.contexts []).countP
           (fun c => xbrl.ConstraintSet.ofContext c == s)
         = inst.contexts.countP (fun c => xbrl.ConstraintSet.ofContext c == s) - 1)
  ∧ ((eba_2_21 inst).filter isDuplicateUnitFinding
       = (dupOccurrencesBy xbrl.ConstraintSet.ofUnit inst.units []).map
           (fun u => eba_2_21_dup_error u
             ((inst.units.find? (fun w =>
                 decide (xbrl.ConstraintSet.ofUnit w = xbrl.ConstraintSet.ofUnit u))).getD u)))
  ∧ (inst.units.Pairwise
       (fun a b => xbrl.ConstraintSet.ofUnit a ≠ xbrl.ConstraintSet.ofUnit b)
     → (eba_2_21 inst).filter isDuplicateUnitFinding = [])
  ∧ (∀ s : List String,
       (dupOccurrencesBy xbrl.ConstraintSet.ofUnit inst.units []).countP
           (fun u => decide (xbrl.ConstraintSet.ofUnit u = s))
         = inst.units.countP (fun u => decide (xbrl.ConstraintSet.ofUnit u = s)) - 1) := by
  have hextraC : ∀ c : Context,
      ((fun context =>
          if (inst.facts_filter_context context).isEmpty then [eba_2_7_unused_error context]
          else []) c).filter isDuplicateContextFinding = [] := by
    intro c
    by_cases h : (inst.facts_filter_context c).isEmpty
    · simp only [if_pos h]
      simp [isDuplicateContextFinding_unused]
    · simp only [if_neg h]
      rfl
  have hcharC := equivalenceGrouperGo_filter xbrl.ConstraintSet.ofContext
    (fun context =>
      if (inst.facts_filter_context context).isEmpty then [eba_2_7_unused_error context]
      else [])
    eba_2_7_dup_error isDuplicateContextFinding hextraC
    isDuplicateContextFinding_dup
    inst.contexts inst.contexts [] [] rfl (fun _ => rfl)
  have hextraU : ∀ u : xbrl.Unit,
      ((fun (_ : xbrl.Unit) => ([] : List xbrl.Error)) u).filter isDuplicateUnitFinding = [] :=
    fun _ => rfl
  have hcharU := equivalenceGrouperGo_filter xbrl.ConstraintSet.ofUnit
    (fun _ => []) eba_2_21_dup_error isDuplicateUnitFinding hextraU
    isDuplicateUnitFinding_dup
    inst.units inst.units [] [] rfl (fun _ => rfl)
  refine ⟨hcharC, ?_, ?_, hcharU, ?_, ?_⟩
  · intro hpw
    rw [show (eba_2_7 inst).filter isDuplicateContextFinding
        = (dupOccurrencesBy xbrl.ConstraintSet.ofContext inst.contexts []).map
            (fun c => eba_2_7_dup_error c
              ((inst.contexts.find? (fun d =>
                  xbrl.ConstraintSet.ofContext d == xbrl.ConstraintSet.ofContext c)).getD c))
      from hcharC]
    rw [dupOccurrencesBy_eq_nil xbrl.ConstraintSet.ofContext inst.contexts []
      (fun c _ => List.not_mem_nil _) hpw]
    rfl
  · intro s
    have h := dupOccurrencesBy_countP xbrl.ConstraintSet.ofContext s inst.contexts []
    rw [if_neg (List.not_mem_nil s)] at h
    exact h
  · intro hpw
    rw [show (eba_2_21 inst).filter isDuplicateUnitFinding
        = (dupOccurrencesBy xbrl.ConstraintSet.ofUnit inst.units []).map
            (fun u => eba_2_21_dup_error u
              ((inst.units.find? (fun w =>
                  decide (xbrl.ConstraintSet.ofUnit w = xbrl.ConstraintSet.ofUnit u))).getD u))
      from hcharU]
    rw [dupOccurrencesBy_eq_nil xbrl.ConstraintSet.ofUnit inst.units []
      (fun u _ => List.not_mem_nil _) hpw]
    rfl
  · intro s
    have h := dupOccurrencesBy_countP xbrl.ConstraintSet.ofUnit s inst.units []
    rw [if_neg (List.not_mem_nil s)] at h
    exact h

/-- Witness for C1: on a concrete instance whose contexts and units have
pairwise-distinct constraint-set signatures, both duplicate checks report no
duplicate finding. -/
theorem eba_2_7_eba_2_21_duplicate_group_reporting_witness :
    (eba_2_7 instW1).filter isDuplicateContextFinding = []
  ∧ (eba_2_21 instW1).filter isDuplicateUnitFinding = [] :=
  ⟨(eba_2_7_eba_2_21_duplicate_group_reporting instW1).2.1 (by simp [instW1]),
   (eba_2_7_eba_2_21_duplicate_group_reporting instW1).2.2.2.2.1 (by simp [instW1])⟩

lemma eba_2_16_state_first (full : List xbrl.Fact) :
    ∀ (rest pref : List xbrl.Fact) (m : List ((Context × Option String) × xbrl.Fact)),
      full = pref ++ rest →
      (∀ k, lookupA m k = pref.find? (fun d => decide (d.factKey = k))) →
      ∀ k, lookupA (eba_2_16_state rest m) k
            = full.find? (fun d => decide (d.factKey = k))
  | [], pref, m, hfull, hm, k => by
    rw [eba_2_16_state, hm k, hfull, List.append_nil]
  | fact :: rest', pref, m, hfull, hm, k => by
    have hkey := hm fact.factKey
    cases hfind : pref.find? (fun d => decide (d.factKey = fact.factKey)) with
    | some f0 =>
      rw [hfind] at hkey
      have hm' : ∀ k', lookupA m k'
          = (pref ++ [fact]).find? (fun d => decide (d.factKey = k')) := by
        intro k'
        rw [List.find?_append]
        cases hpk : pref.find? (fun d => decide (d.factKey = k')) with
        | some d => rw [hm k', hpk]; rfl
        | none =>
          rw [hm k', hpk, find?_singleton]
          have hne : decide (fact.factKey = k') = false := by
            apply decide_eq_false
            intro hkc
            rw [hkc] at hfind
            rw [hfind] at hpk
            cases hpk
          rw [hne]
          rfl
      have hfull' : full = (pref ++ [fact]) ++ rest' := by
        rw [hfull, List.append_assoc]; rfl
      rw [eba_2_16_state, hkey]
      exact eba_2_16_state_first full rest' (pref ++ [fact]) m hfull' hm' k
    | none =>
      rw [hfind] at hkey
      have hm' : ∀ k', lookupA (m ++ [(fact.factKey, fact)]) k'
          = (pref ++ [fact]).find? (fun d => decide (d.factKey = k')) := by
        intro k'
        rw [List.find?_append]
        cases hpk : pref.find? (fun d => decide (d.factKey = k')) with
        | some d =>
          have h := hm k'
          rw [hpk] at h
          rw [lookupA_append_of_some _ _ h]
          rfl
        | none =>
          have hmk : lookupA m k' = none := by rw [hm k', hpk]
          rw [lookupA_append_of_none _ _ hmk, find?_singleton]
          by_cases hkc : fact.factKey = k'
          · rw [if_pos hkc, decide_eq_true hkc]
            rfl
          · rw [if_neg hkc, decide_eq_false hkc]
            rfl
      have hfull' : full = (pref ++ [fact]) ++ rest' := by
        rw [hfull, List.append_assoc]; rfl
      rw [eba_2_16_state, hkey]
      exact eba_2_16_state_first full rest' (pref ++ [fact]) (m ++ [(fact.factKey, fact)])
        hfull' hm' k

lemma eba_2_16_go_characterization (full : List xbrl.Fact) (hnd : full.Nodup) :
    ∀ (rest pref : List xbrl.Fact) (m : List ((Context × Option String) × xbrl.Fact)),
      full = pref ++ rest →
      (∀ k, lookupA m k = pref.find? (fun d => decide (d.factKey = k))) →
      eba_2_16_go rest m
        = (dupOccurrencesBy xbrl.Fact.factKey rest (pref.map xbrl.Fact.factKey)).map
            (fun f =>
              let f0 := (full.find? (fun d => decide (d.factKey = f.factKey))).getD f
              if f.unit = f0.unit then eba_2_16_dup_error f f0
              else eba_2_16_multiunit_error f f0)
  | [], _, _, _, _ => rfl
  | fact :: rest', pref, m, hfull, hm => by
    have hkey := hm fact.factKey
    cases hfind : pref.find? (fun d => decide (d.factKey = fact.factKey)) with
    | some f0 =>
      rw [hfind] at hkey
      have hf0mem : f0 ∈ pref := List.mem_of_find?_eq_some hfind
      have hf0key : f0.factKey = fact.factKey := by
        have h := List.find?_some hfind
        simpa using h
      have hseen : fact.factKey ∈ pref.map xbrl.Fact.factKey :=
        List.mem_map.mpr ⟨f0, hf0mem, hf0key⟩
      have hfullfind : full.find? (fun d => decide (d.factKey = fact.factKey)) = some f0 := by
        rw [hfull, List.find?_append, hfind]; rfl
      have hne : f0 ≠ fact := by
        intro h
        have hnd' := hfull ▸ hnd
        have hdisj := (List.nodup_append.mp hnd').2.2
        exact hdisj hf0mem (h ▸ List.mem_cons_self fact rest')
      have hm' : ∀ k', lookupA m k'
          = (pref ++ [fact]).find? (fun d => decide (d.factKey = k')) := by
        intro k'
        rw [List.find?_append]
        cases hpk : pref.find? (fun d => decide (d.factKey = k')) with
        | some d => rw [hm k', hpk]; rfl
        | none =>
          rw [hm k', hpk, find?_singleton]
          have hnek : decide (fact.factKey = k') = false := by
            apply decide_eq_false
            intro hkc
            rw [hkc] at hfind
            rw [hfind] at hpk
            cases hpk
          rw [hnek]
          rfl
      have hfull' : full = (pref ++ [fact]) ++ rest' := by
        rw [hfull, List.append_assoc]; rfl
      have ih := eba_2_16_go_characterization full hnd rest' (pref ++ [fact]) m hfull' hm'
      simp only [eba_2_16_go, hkey]
      rw [if_neg hne, dupOccurrencesBy, if_pos hseen, List.map_cons, hfullfind]
      simp only [Option.getD_some]
      rw [ih]
      have hcongr : dupOccurrencesBy xbrl.Fact.factKey rest'
            ((pref ++ [fact]).map xbrl.Fact.factKey)
          = dupOccurrencesBy xbrl.Fact.factKey rest' (pref.map xbrl.Fact.factKey) := by
        apply dupOccurrencesBy_congr
        intro s
        simp only [List.map_append, List.map_cons, List.map_nil, List.mem_append,
          List.mem_cons, List.not_mem_nil, or_false]
        constructor
        · rintro (h | h)
          · exact h
          · rw [h]; exact hseen
        · intro h; exact Or.inl h
      rw [hcongr]
      by_cases hu : fact.unit = f0.unit <;> simp [hu]
    | none =>
      rw [hfind] at hkey
      have hnotseen : fact.factKey ∉ pref.map xbrl.Fact.factKey := by
        intro hmem
        obtain ⟨d, hd, hds⟩ := List.mem_map.mp hmem
        have h := List.find?_eq_none.mp hfind d hd
        exact h (by simpa using hds)
      have hm' : ∀ k', lookupA (m ++ [(fact.factKey, fact)]) k'
          = (pref ++ [fact]).find? (fun d => decide (d.factKey = k')) := by
        intro k'
        rw [List.find?_append]
        cases hpk : pref.find? (fun d => decide (d.factKey = k')) with
        | some d =>
          have h := hm k'
          rw [hpk] at h
          rw [lookupA_append_of_some _ _ h]
          rfl
        | none =>
          have hmk : lookupA m k' = none := by rw [hm k', hpk]
          rw [lookupA_append_of_none _ _ hmk, find?_singleton]
          by_cases hkc : fact.factKey = k'
          · rw [if_pos hkc, decide_eq_true hkc]
            rfl
          · rw [if_neg hkc, decide_eq_false hkc]
            rfl
      have hfull' : full = (pref ++ [fact]) ++ rest' := by
        rw [hfull, List.append_assoc]; rfl
      have ih := eba_2_16_go_characterization full hnd rest' (pref ++ [fact])
        (m ++ [(fact.factKey, fact)]) hfull' hm'
      simp only [eba_2_16_go, hkey]
      rw [dupOccurrencesBy, if_neg hnotseen, ih]
      apply congrArg (fun l => List.map _ l)
      apply dupOccurrencesBy_congr
      intro s
      simp only [List.map_append, List.map_cons, List.map_nil, List.mem_append,
        List.mem_cons, List.not_mem_nil, or_false]
      constructor
      · rintro (h | h)
        · exact Or.inr h
        · exact Or.inl h
      · rintro (h | h)
        · exact Or.inr h
        · exact Or.inl h

/-- **C2**: for every reported concept other than the reserved filing
indicator, `eba_2_16` emits, among the facts of that concept, exactly one
finding per fact beyond the first of its (context, language) group — a
duplicate-fact (EBA.2.16) finding when that fact's unit equals the unit of
the group's first (stored) fact, and a multi-unit (EBA.2.16.1) finding when
the units differ; the two finding shapes are distinct, so never both for the
same fact. -/
theorem eba_2_16_duplicate_vs_multiunit (inst : Instance) (hnd : inst.facts.Nodup) :
    eba_2_16 inst
      = inst.concept_aspect_values.foldr
          (fun concept acc =>
            (if concept.is_item &&
                (concept.target_namespace != "http://www.eurofiling.info/xbrl/ext/filing-indicators"
                  || concept.name != "filingIndicator") then
              (dupOccurrencesBy xbrl.Fact.factKey (inst.facts_filter_concept concept) []).map
                (fun f =>
                  let f0 := ((inst.facts_filter_concept concept).find?
                      (fun d => decide (d.factKey = f.factKey))).getD f
                  if f.unit = f0.unit then eba_2_16_dup_error f f0
                  else eba_2_16_multiunit_error f f0)
            else []) ++ acc) []
  ∧ (∀ f f0 : xbrl.Fact, eba_2_16_dup_error f f0 ≠ eba_2_16_multiunit_error f f0) := by
  constructor
  · have hpt : ∀ concept : xbrl.Concept,
        eba_2_16_go (inst.facts_filter_concept concept) []
          = (dupOccurrencesBy xbrl.Fact.factKey (inst.facts_filter_concept concept) []).map
              (fun f =>
                let f0 := ((inst.facts_filter_concept concept).find?
                    (fun d => decide (d.factKey = f.factKey))).getD f
                if f.unit = f0.unit then eba_2_16_dup_error f f0
                else eba_2_16_multiunit_error f f0) := by
      intro concept
      exact eba_2_16_go_characterization (inst.facts_filter_concept concept)
        (hnd.filter _) (inst.facts_filter_concept concept) [] [] rfl (fun _ => rfl)
    have hfold : ∀ (cs : List xbrl.Concept),
        cs.foldr
          (fun concept acc =>
            (if concept.is_item &&
                (concept.target_namespace != "http://www.eurofiling.info/xbrl/ext/filing-indicators"
                  || concept.name != "filingIndicator") then
              eba_2_16_go (inst.facts_filter_concept concept) []
            else []) ++ acc) []
          = cs.foldr
          (fun concept acc =>
            (if concept.is_item &&
                (concept.target_namespace != "http://www.eurofiling.info/xbrl/ext/filing-indicators"
                  || concept.name != "filingIndicator") then
              (dupOccurrencesBy xbrl.Fact.factKey (inst.facts_filter_concept concept) []).map
                (fun f =>
                  let f0 := ((inst.facts_filter_concept concept).find?
                      (fun d => decide (d.factKey = f.factKey))).getD f
                  if f.unit = f0.unit then eba_2_16_dup_error f f0
                  else eba_2_16_multiunit_error f f0)
            else []) ++ acc) [] := by
      intro cs
      induction cs with
      | nil => rfl
      | cons cpt rest ih =>
        simp only [List.foldr_cons]
        rw [ih]
        by_cases hc : (cpt.is_item &&
            (cpt.target_namespace != "http://www.eurofiling.info/xbrl/ext/filing-indicators"
              || cpt.name != "filingIndicator")) = true
        · rw [if_pos hc, if_pos hc, hpt cpt]
        · rw [if_neg hc, if_neg hc]
    exact hfold inst.concept_aspect_values
  · intro f f0 h
    have hmsg := congrArg xbrl.Error.message h
    simp only [eba_2_16_dup_error, eba_2_16_multiunit_error, xbrl.Error.create,
      xbrl.Error.message] at hmsg
    exact absurd hmsg (by decide)

/-- **C10**: in `eba_2_16` the stored representative of a (context,
language) group is always the first fact of the group and is never replaced,
and every later fact is compared only against that first fact's unit: a
third fact whose unit equals the second's but differs from the first's is
reported as a multi-unit finding paired with the first fact (the second
fact, likewise, is paired with the first). -/
theorem eba_2_16_first_fact_is_representative :
    (∀ (fl : List xbrl.Fact) (k : Context × Option String),
        lookupA (eba_2_16_state fl []) k = fl.find? (fun f => decide (f.factKey = k)))
  ∧ (∀ f1 f2 f3 : xbrl.Fact,
        ([f1, f2, f3] : List xbrl.Fact).Nodup →
        f1.factKey = f2.factKey → f2.factKey = f3.factKey →
        f2.unit = f3.unit → f3.unit ≠ f1.unit →
        eba_2_16_go [f1, f2, f3] []
          = [eba_2_16_multiunit_error f2 f1, eba_2_16_multiunit_error f3 f1]) := by
  constructor
  · intro fl k
    exact eba_2_16_state_first fl fl [] [] rfl (fun _ => rfl) k
  · intro f1 f2 f3 hnd hk12 hk23 hu23 hu31
    have hne12 : f1 ≠ f2 := by
      intro h
      rw [h] at hnd
      simp at hnd
    have hne13 : f1 ≠ f3 := by
      intro h
      rw [h] at hnd
      simp at hnd
    have hu21 : ¬ (f2.unit = f1.unit) := by
      rw [hu23]
      exact hu31
    have e2 : lookupA [(f1.factKey, f1)] f2.factKey = some f1 := by
      rw [lookupA, if_pos hk12]
    have e3 : lookupA [(f1.factKey, f1)] f3.factKey = some f1 := by
      rw [lookupA, if_pos (hk12.trans hk23)]
    rw [show eba_2_16_go [f1, f2, f3] [] = eba_2_16_go [f2, f3] [(f1.factKey, f1)] from rfl]
    simp only [eba_2_16_go, e2, e3]
    rw [if_neg hne12, if_neg hu21, if_neg hne13, if_neg hu31]
    rfl

/-- Witness for C2: on the concrete instance, the second and third facts of
the (context, language) group each get exactly one finding — multi-unit
findings paired with the first fact, since their unit differs from its. -/
theorem eba_2_16_duplicate_vs_multiunit_witness :
    eba_2_16 instW2
      = [eba_2_16_multiunit_error factW2 factW1, eba_2_16_multiunit_error factW3 factW1] := by
  have h := (eba_2_16_duplicate_vs_multiunit instW2 (by decide)).1
  rw [h]
  rfl

/-- Witness for C10: the three-fact scenario at concrete facts — the third
fact is reported as a multi-unit finding paired with the first fact, not as
a duplicate of the second. -/
theorem eba_2_16_first_fact_is_representative_witness :
    eba_2_16_go [factW1, factW2, factW3] []
      = [eba_2_16_multiunit_error factW2 factW1, eba_2_16_multiunit_error factW3 factW1] :=
  eba_2_16_first_fact_is_representative.2 factW1 factW2 factW3
    (by decide) rfl rfl rfl (by decide)

/-- **C3** (code bug): the rule predicates do not all run to completion.
The error-reporting branch of the schema-reference rule `eba_2_2` evaluates
`schema_refs[0]`, a name that is undefined in the function body, and raises
`NameError` (source line 136); and the single-reporter rule `eba_2_9` raises
`StopIteration` on an instance with zero contexts (source line 195). -/
theorem eba_2_2_error_branch_raises :
    eba_2_2 instRelativeSchemaRef = ([], some Fault.nameError)
  ∧ eba_2_9 instNoContexts = ([], some Fault.stopIteration) :=
  ⟨rfl, rfl⟩

/-- **C4** (code bug): on an instance with zero contexts (and zero schema
references), the predicates that take "the first element" via `next(...)` do
not vacuously succeed — `next` on the empty iterator raises `StopIteration`
in `eba_2_9`, `eba_2_13` and `eba_2_2` instead of skipping the check. -/
theorem first_element_rules_raise_on_empty :
    eba_2_9 instEmptyCollections = ([], some Fault.stopIteration)
  ∧ eba_2_13 instEmptyCollections = ([], some Fault.stopIteration)
  ∧ eba_2_2 instEmptyCollections = ([], some Fault.stopIteration) :=
  ⟨rfl, rfl, rfl⟩

/-- **C5**: when the host signals that base XBRL validation failed (the
instance is absent), no rule predicate runs and no fault is raised; the
error log afterwards consists of exactly one top-level finding whose
children are the synthetic detail followed by all previously accumulated
findings, and none of the original findings remains a direct entry of the
log. -/
theorem on_xbrl_finished_failure_wrapping (job : Job) :
    on_xbrl_finished job none
      = ({ job with error_log := [eba_1_9_main job.error_log] }, none)
  ∧ (∀ e ∈ job.error_log, e ∈ (eba_1_9_main job.error_log).children)
  ∧ (∀ e ∈ job.error_log, e ∉ [eba_1_9_main job.error_log]) := by
  refine ⟨rfl, ?_, ?_⟩
  · intro e he
    exact List.mem_cons_of_mem _ he
  · intro e he hmem
    have heq : e = eba_1_9_main job.error_log := by
      simpa using hmem
    have hlt : sizeOf e < sizeOf (eba_1_9_detail :: job.error_log) :=
      List.sizeOf_lt_of_mem (List.mem_cons_of_mem _ he)
    have hsz : sizeOf (eba_1_9_main job.error_log)
        = 1 + sizeOf "[EBA.1.9] Valid XML-XBRL."
          + sizeOf ([] : List (String × String))
          + sizeOf (none : Option String)
          + sizeOf (eba_1_9_detail :: job.error_log)
          + sizeOf xml.ErrorSeverity.ERROR := by
      rw [eba_1_9_main, xbrl.Error.create]
      rw [xbrl.Error.mk.sizeOf_spec]
    rw [heq] at hlt
    omega

/-- Witness for C5: applied to a job whose log holds one prior finding. -/
theorem on_xbrl_finished_failure_wrapping_witness :
    (on_xbrl_finished ⟨[], [], [eba_1_9_detail]⟩ none)
      = (⟨[], [], [eba_1_9_main [eba_1_9_detail]]⟩, none)
  ∧ eba_1_9_detail ∈ (eba_1_9_main [eba_1_9_detail]).children
  ∧ eba_1_9_detail ∉ [eba_1_9_main [eba_1_9_detail]] :=
  ⟨(on_xbrl_finished_failure_wrapping ⟨[], [], [eba_1_9_detail]⟩).1,
   (on_xbrl_finished_failure_wrapping ⟨[], [], [eba_1_9_detail]⟩).2.1 eba_1_9_detail
     (List.mem_cons_self _ _),
   (on_xbrl_finished_failure_wrapping ⟨[], [], [eba_1_9_detail]⟩).2.2 eba_1_9_detail
     (List.mem_cons_self _ _)⟩

lemma dfs_stack_append :
    ∀ (n : Nat) (l1 l2 : List xml.Element), sizeOf l1 ≤ n →
      dfs_stack (l1 ++ l2) = dfs_stack l1 ++ dfs_stack l2 := by
  intro n
  induction n with
  | zero =>
    intro l1 l2 h
    exfalso
    cases l1 with
    | nil => simp only [List.nil.sizeOf_spec] at h; omega
    | cons a t => simp only [List.cons.sizeOf_spec] at h; omega
  | succ n ih =>
    intro l1 l2 h
    cases l1 with
    | nil => simp [dfs_stack]
    | cons e t =>
      rw [List.cons_append, dfs_stack, dfs_stack, ← List.append_assoc]
      have hb : sizeOf (e.element_children.reverse ++ t) ≤ n := by
        have h1 := List.sizeOf_append_elem e.element_children.reverse t
        have h2 := List.sizeOf_reverse_elem e.element_children
        have h3 := xml.Element.sizeOf_element_children e
        simp only [List.cons.sizeOf_spec] at h
        omega
      rw [ih (e.element_children.reverse ++ t) l2 hb]
      simp [List.append_assoc]

lemma dfs_stack_eq_flatMap :
    ∀ (n : Nat) (l : List xml.Element), sizeOf l ≤ n →
      dfs_stack l = l.flatMap dfs := by
  intro n
  induction n with
  | zero =>
    intro l h
    exfalso
    cases l with
    | nil => simp only [List.nil.sizeOf_spec] at h; omega
    | cons a t => simp only [List.cons.sizeOf_spec] at h; omega
  | succ n ih =>
    intro l h
    cases l with
    | nil => simp [dfs_stack]
    | cons e t =>
      rw [dfs_stack, List.flatMap_cons]
      have hb : sizeOf (e.element_children.reverse ++ t)
          ≤ sizeOf e.element_children.reverse + sizeOf t := by
        have h1 := List.sizeOf_append_elem e.element_children.reverse t
        omega
      have h2 := List.sizeOf_reverse_elem e.element_children
      have h3 := xml.Element.sizeOf_element_children e
      simp only [List.cons.sizeOf_spec] at h
      rw [dfs_stack_append (sizeOf e.element_children.reverse) e.element_children.reverse t
        (le_refl _)]
      have hd : dfs e = e :: dfs_stack e.element_children.reverse := by
        rw [dfs, dfs_stack, List.append_nil]
      rw [hd, ih t (by omega)]
      simp

lemma dfs_unfold (e : xml.Element) :
    dfs e = e :: (e.element_children.reverse.flatMap dfs) := by
  rw [dfs, dfs_stack, List.append_nil,
    dfs_stack_eq_flatMap (sizeOf e.element_children.reverse) _ (le_refl _)]

lemma preorderForest_eq_flatMap :
    ∀ l : List xml.Element, preorderForest l = l.flatMap preorderElem
  | [] => rfl
  | e :: rest => by
    rw [preorderForest, List.flatMap_cons, preorderForest_eq_flatMap rest]

lemma preorderElem_unfold (e : xml.Element) :
    preorderElem e = e :: e.element_children.flatMap preorderElem := by
  cases e with
  | mk ns p n atts nsatts v ch =>
    rw [preorderElem, preorderForest_eq_flatMap]
    rfl

lemma dfs_perm_preorder :
    ∀ (n : Nat) (e : xml.Element), sizeOf e ≤ n → (dfs e).Perm (preorderElem e) := by
  intro n
  induction n with
  | zero =>
    intro e h
    exfalso
    cases e with
    | mk ns p nm atts nsatts v ch =>
      simp only [xml.Element.mk.sizeOf_spec] at h
      omega
  | succ n ih =>
    intro e h
    rw [dfs_unfold, preorderElem_unfold]
    apply List.Perm.cons
    have hpt : ∀ c ∈ e.element_children.reverse, (dfs c).Perm (preorderElem c) := by
      intro c hc
      apply ih
      have hcm : c ∈ e.element_children := List.mem_reverse.mp hc
      have h1 : sizeOf c < sizeOf e.element_children := List.sizeOf_lt_of_mem hcm
      have h2 := xml.Element.sizeOf_element_children e
      omega
    exact (List.Perm.flatMap_left _ hpt).trans
      ((List.reverse_perm e.element_children).flatMap_right _)

/-- **C6, counterexample**: on a root with two children the walker `dfs`
yields the second child's subtree before the first — the sequence is not the
depth-first pre-order sequence (root, a, b) but (root, b, a). -/
theorem dfs_not_preorder_counterexample :
    dfs elemRoot = [elemRoot, elemB, elemA]
  ∧ preorderElem elemRoot = [elemRoot, elemA, elemB]
  ∧ dfs elemRoot ≠ preorderElem elemRoot := by
  have ha : dfs elemA = [elemA] := by rw [dfs_unfold]; rfl
  have hb : dfs elemB = [elemB] := by rw [dfs_unfold]; rfl
  have h1 : dfs elemRoot = [elemRoot, elemB, elemA] := by
    rw [dfs_unfold]
    rw [show elemRoot.element_children = [elemA, elemB] from rfl]
    rw [show ([elemA, elemB] : List xml.Element).reverse = [elemB, elemA] from rfl]
    rw [List.flatMap_cons, List.flatMap_cons, List.flatMap_nil, ha, hb]
    rfl
  have h2 : preorderElem elemRoot = [elemRoot, elemA, elemB] := by
    rw [preorderElem_unfold]
    rw [show elemRoot.element_children = [elemA, elemB] from rfl]
    rw [List.flatMap_cons, List.flatMap_cons, List.flatMap_nil]
    rw [preorderElem_unfold, preorderElem_unfold]
    rfl
  refine ⟨h1, h2, ?_⟩
  rw [h1, h2]
  intro h
  simp only [List.cons.injEq] at h
  have hba : elemB = elemA := h.2.1
  simp [elemA, elemB, xml.Element.mk.injEq] at hba

/-- **C6, amended**: `dfs` produces a finite sequence that starts with the
root, contains exactly the elements of the subtree — one occurrence per
occurrence in the pre-order sequence (a permutation of it) — and visits
sibling subtrees in reverse document order: the traversal of a node is the
node followed by the depth-first traversals of its children in reversed
order.  The function is pure, so re-invoking it on the same root yields the
same sequence. -/
theorem dfs_reverse_sibling_depth_first (e : xml.Element) :
    dfs e = e :: (e.element_children.reverse.flatMap dfs)
  ∧ (dfs e).Perm (preorderElem e)
  ∧ (dfs e).head? = some e :=
  ⟨dfs_unfold e,
   dfs_perm_preorder (sizeOf e) e (le_refl _),
   by rw [dfs_unfold e]; rfl⟩

/-- **C7**: the full predicate sequence is a deterministic function of the
instance model, the script parameters and the options — running it twice
produces two identical ordered sequences of appended findings, and its
output does not depend on the contents already accumulated in the error log
(the only state the predicates share). -/
theorem check_eba_filing_rules_deterministic (job1 job2 : Job) (inst : Instance)
    (hp : job1.script_params = job2.script_params)
    (ho : job1.options = job2.options) :
    (runPredicateSequenceTwice job1 inst).1 = (runPredicateSequenceTwice job1 inst).2
  ∧ check_eba_filing_rules job1 inst = check_eba_filing_rules job2 inst := by
  obtain ⟨p1, o1, l1⟩ := job1
  obtain ⟨p2, o2, l2⟩ := job2
  simp only at hp ho
  subst hp
  subst ho
  exact ⟨rfl, rfl⟩

/-- Witness for C7: two jobs differing only in their accumulated error log
produce the same findings, and the double run of the first is self-equal. -/
theorem check_eba_filing_rules_deterministic_witness :
    (runPredicateSequenceTwice ⟨[], [], []⟩ instW1).1
      = (runPredicateSequenceTwice ⟨[], [], []⟩ instW1).2
  ∧ check_eba_filing_rules ⟨[], [], []⟩ instW1
      = check_eba_filing_rules ⟨[], [], [eba_1_9_detail]⟩ instW1 :=
  check_eba_filing_rules_deterministic ⟨[], [], []⟩ ⟨[], [], [eba_1_9_detail]⟩ instW1
    rfl rfl

/-- **C8, counterexample**: with the parameter `max-id-length` bound to the
non-numeric string `abc`, `eba_2_6` does not fall back to the default limit
50 — `int('abc')` raises `ValueError` and the rule reports nothing, unlike
the run with the parameter absent, which reports the over-long id under the
default limit. -/
theorem eba_2_6_nonnumeric_param_raises :
    eba_2_6 instLongId [("max-id-length", "abc")] = ([], some Fault.valueError)
  ∧ eba_2_6 instLongId [] = (eba_2_6_findings instLongId 50, none)
  ∧ (eba_2_6_findings instLongId 50).length = 1
  ∧ eba_2_6 instLongId [("max-id-length", "abc")] ≠ eba_2_6 instLongId [] := by
  refine ⟨rfl, rfl, rfl, ?_⟩
  intro h
  rw [show eba_2_6 instLongId [("max-id-length", "abc")] = ([], some Fault.valueError)
      from rfl,
    show eba_2_6 instLongId [] = (eba_2_6_findings instLongId 50, none) from rfl] at h
  simp at h

/-- **C8, amended**: an absent `max-id-length` (resp. `max-string-length`)
parameter falls back to the default limit 50 (resp. 100) with no fault; a
present numeric value is used as the limit; but a present non-numeric value
raises a `ValueError` fault instead of falling back to the default. -/
theorem eba_params_defaults_and_nonnumeric (inst : Instance)
    (params : List (String × String)) :
    (lookupA params "max-id-length" = none →
       eba_2_6 inst params = (eba_2_6_findings inst 50, none))
  ∧ (∀ s, lookupA params "max-id-length" = some s → pyInt? s = none →
       eba_2_6 inst params = ([], some Fault.valueError))
  ∧ (∀ s n, lookupA params "max-id-length" = some s → pyInt? s = some n →
       eba_2_6 inst params = (eba_2_6_findings inst n, none))
  ∧ (lookupA params "max-string-length" = none →
       eba_3_8 inst params = (eba_3_8_findings inst 100, none))
  ∧ (∀ s, lookupA params "max-string-length" = some s → pyInt? s = none →
       eba_3_8 inst params = ([], some Fault.valueError))
  ∧ (∀ s n, lookupA params "max-string-length" = some s → pyInt? s = some n →
       eba_3_8 inst params = (eba_3_8_findings inst n, none)) := by
  refine ⟨?_, ?_, ?_, ?_, ?_, ?_⟩
  · intro h; simp only [eba_2_6, h]
  · intro s h hpy; simp only [eba_2_6, h, hpy]
  · intro s n h hpy; simp only [eba_2_6, h, hpy]
  · intro h; simp only [eba_3_8, h]
  · intro s h hpy; simp only [eba_3_8, h, hpy]
  · intro s n h hpy; simp only [eba_3_8, h, hpy]

/-- Witness for the amended C8: the default fallback and the `ValueError`
fault at concrete parameter maps. -/
theorem eba_params_defaults_and_nonnumeric_witness :
    eba_2_6 instLongId [] = (eba_2_6_findings instLongId 50, none)
  ∧ eba_3_8 instLongId [("max-string-length", "12x")] = ([], some Fault.valueError) :=
  ⟨(eba_params_defaults_and_nonnumeric instLongId []).1 rfl,
   (eba_params_defaults_and_nonnumeric instLongId [("max-string-length", "12x")]).2.2.2.2.1
     "12x" rfl rfl⟩

/-- **C9, counterexample**: with the host's XInclude processing enabled,
`eba_1_15` emits one finding on an instance that contains no XInclude
construct at all — the rule does not emit one finding per occurrence. -/
theorem eba_1_15_reports_without_occurrence :
    (eba_1_15 instW1 [("xinclude", true)]).length = 1
  ∧ countXIncludeOccurrences instW1 = 0
  ∧ (eba_1_15 instW1 [("xinclude", true)]).length ≠ countXIncludeOccurrences instW1 := by
  have hd : dfs leafElem = [leafElem] := by rw [dfs_unfold]; rfl
  have h2 : countXIncludeOccurrences instW1 = 0 := by
    rw [countXIncludeOccurrences, show instW1.document_element = leafElem from rfl, hd]
    rfl
  refine ⟨rfl, h2, ?_⟩
  rw [h2]
  decide

/-- **C9, amended**: when the host's XInclude processing is enabled the rule
emits exactly one finding per instance, located at the instance URI and
independent of the instance document's contents (in particular of the number
of XInclude constructs); when the option is off or absent it emits no
finding. -/
theorem eba_1_15_once_per_instance (inst1 inst2 : Instance)
    (opts : List (String × Bool)) (huri : inst1.uri = inst2.uri) :
    eba_1_15 inst1 opts = eba_1_15 inst2 opts
  ∧ (eba_1_15 inst1 opts).length
      = (if optionsGet opts "xinclude" == some true then 1 else 0)
  ∧ (∀ e ∈ eba_1_15 inst1 opts, e.location = some inst1.uri) := by
  refine ⟨?_, ?_, ?_⟩
  · simp only [eba_1_15, huri]
  · cases hx : (optionsGet opts "xinclude" == some true) with
    | true => simp only [eba_1_15, hx, if_true, List.length_cons, List.length_nil]
    | false => simp only [eba_1_15, hx, Bool.false_eq_true, if_false, List.length_nil]
  · intro e he
    rw [eba_1_15] at he
    by_cases hx : (optionsGet opts "xinclude" == some true) = true
    · rw [if_pos hx] at he
      have : e = xbrl.Error.create "[EBA.1.15] XInclude." [] (some inst1.uri)
          [xbrl.Error.create
            "XBRL instance documents MUST NOT use the XInclude specification (xi:include element)."
            [] none [] .INFO,
           xbrl.Error.create "Hint: Disable XInclude support with the --xinclude=false option."
            [] none [] .OTHER] .ERROR := by
        simpa using he
      rw [this]
      rfl
    · rw [if_neg hx] at he
      cases he

/-- Witness for the amended C9: at a concrete instance and options map with
XInclude processing enabled, exactly one finding is emitted. -/
theorem eba_1_15_once_per_instance_witness :
    (eba_1_15 instW1 [("xinclude", true)]).length
      = (if optionsGet [("xinclude", true)] "xinclude" == some true then 1 else 0) :=
  (eba_1_15_once_per_instance instW1 instW1 [("xinclude", true)] rfl).2.1
